import Mathlib

/-!
Verification development for the fire-service dispatch-coordination backend.

The backend's alert → incident lifecycle engine is embedded shallowly:
the document store is a record of lists, each controller or service
function becomes a pure Lean function from the store (plus the request
data and the current wall-clock time) to a response together with the
updated store.  Mongoose `findById` becomes `List.find?` on the id,
`findByIdAndUpdate` becomes a map over the list, `countDocuments`
becomes `List.filter` + `length`, and the `pre('save')` middleware of
the Incident schema becomes an explicit save pipeline returning
`Except`.  Wall-clock dates are abstracted as a calendar-day index plus
minutes past midnight, which models exactly the `setDate`/`setHours`
arithmetic the source performs.
-/

namespace GNFS

/-- ASCII lowercasing, modelling JavaScript's `toLowerCase` on the
identifier-like strings the backend compares (structural on the
character list so that concrete instances evaluate). -/
def strLower (s : String) : String := ⟨s.data.map Char.toLower⟩

/-- Whitespace trimming, modelling JavaScript's `trim` (structural). -/
def strTrim (s : String) : String :=
  ⟨((s.data.dropWhile Char.isWhitespace).reverse.dropWhile Char.isWhitespace).reverse⟩

/-- Whether the second character list starts with the first. -/
def charsLeadWith : List Char → List Char → Bool
  | [], _ => true
  | _ :: _, [] => false
  | p :: ps, c :: cs => p == c && charsLeadWith ps cs

/-- Whether a character list contains the pattern as a contiguous
sublist (structural substring test). -/
def charsContain (pat : List Char) : List Char → Bool
  | [] => pat.isEmpty
  | c :: cs => charsLeadWith pat (c :: cs) || charsContain pat cs

/-- Calendar time: a calendar-day index plus minutes past midnight, in
the server's local timezone.  The source only ever adds whole calendar
days (`setDate(getDate() + 1)`) and pins a fixed hour
(`setHours(7, 0, 0, 0)`), so this abstraction is exact for the
computations being verified. -/
structure Time where
  day : Nat
  minute : Nat
deriving DecidableEq, Repr

/-- Strict order on times, as the source's `<` on Date values. -/
def Time.lt (a b : Time) : Bool :=
  Nat.blt a.day b.day || (a.day == b.day && Nat.blt a.minute b.minute)

/-- Non-strict order on times, as the source's `>=` (flipped). -/
def Time.le (a b : Time) : Bool :=
  Nat.blt a.day b.day || (a.day == b.day && Nat.ble a.minute b.minute)

/-- 07:00 on the calendar day following `t`
(`setDate(getDate() + 1); setHours(7, 0, 0, 0)` in `deactivateUnit`). -/
def nextDay7AM (t : Time) : Time := ⟨t.day + 1, 7 * 60⟩

/-- 08:00 on the calendar day following `t`
(`setDate(getDate() + 1); setHours(8, 0, 0, 0)` in `autoDeactivateUnits`). -/
def nextDay8AM (t : Time) : Time := ⟨t.day + 1, 8 * 60⟩

/-- Station document.  Identity and lookup fields follow the station
schema in the repository.  Modelled from the spec: the commission
`status` ("in commission" / "out of commission") and the denormalized
flags `hasActiveAlert` / `hasActiveIncident`, which every controller
reads and writes on Station documents but whose declarations are not in
the schema file present under the sources (`models/Station.js` as the
controllers consume it). -/
structure Station where
  id : Nat
  name : String
  placeId : Option String
  lat : Option Int
  lng : Option Int
  status : String
  hasActiveAlert : Bool
  hasActiveIncident : Bool
deriving DecidableEq, Repr

/-- Department document (`models/Department.js`): name plus owning
station. -/
structure Department where
  id : Nat
  name : String
  station_id : Nat
deriving DecidableEq, Repr

/-- Unit document (unit schema in `models/Rank.js`): one department,
on-duty flag, activation timestamp. -/
structure Unit where
  id : Nat
  name : String
  department : Nat
  isActive : Bool
  activatedAt : Option Time
deriving DecidableEq, Repr

/-- EmergencyAlert document.  Modelled from the spec for the schema
itself (the `models/EmergencyAlert.js` schema file is not among the
sources): station/department/unit references, a status string created
as "active", and the three terminal flags with their timestamps and
reasons — exactly the fields the controllers and the service read and
write. -/
structure EmergencyAlert where
  id : Nat
  station : Option Nat
  department : Option Nat
  unit : Option Nat
  status : String
  dispatched : Bool
  declined : Bool
  referred : Bool
  dispatchedAt : Option Time
  declinedAt : Option Time
  referredAt : Option Time
  declineReason : Option String
  referReason : Option String
  referredToStation : Option Nat
deriving DecidableEq, Repr

/-- Incident document (`models/Incident.js`): alert binding, station,
on-duty department and unit, lifecycle status, the opaque turnout slip
(an abstract value here), and the four operational timestamps. -/
structure Incident where
  id : Nat
  alertId : Nat
  station : Option Nat
  departmentOnDuty : Nat
  unitOnDuty : Nat
  status : String
  turnoutSlip : Option Nat
  dispatchedAt : Option Time
  arrivedAt : Option Time
  resolvedAt : Option Time
  closedAt : Option Time
deriving DecidableEq, Repr

/-- The document store: one list per collection.  Users and fire
personnel only matter as reporter-id lookup collections. -/
structure DB where
  stations : List Station
  alerts : List EmergencyAlert
  incidents : List Incident
  units : List Unit
  departments : List Department
  users : List Nat
  firePersonnel : List Nat
deriving DecidableEq, Repr

def findStation (db : DB) (i : Nat) : Option Station :=
  db.stations.find? (fun s => s.id == i)

def findAlert (db : DB) (i : Nat) : Option EmergencyAlert :=
  db.alerts.find? (fun a => a.id == i)

def findIncident (db : DB) (i : Nat) : Option Incident :=
  db.incidents.find? (fun x => x.id == i)

def findUnit (db : DB) (i : Nat) : Option Unit :=
  db.units.find? (fun u => u.id == i)

def findDepartment (db : DB) (i : Nat) : Option Department :=
  db.departments.find? (fun d => d.id == i)

/-- `Station.findByIdAndUpdate`: update the matching station document. -/
def updateStations (db : DB) (i : Nat) (f : Station → Station) : DB :=
  { db with stations := db.stations.map (fun s => if s.id == i then f s else s) }

/-- `Unit.findByIdAndUpdate` / saving a fetched unit document. -/
def updateUnits (db : DB) (i : Nat) (f : Unit → Unit) : DB :=
  { db with units := db.units.map (fun u => if u.id == i then f u else u) }

/-- Saving a fetched alert document back (`emergencyAlert.save()`),
or `findByIdAndUpdate` with the merged document. -/
def saveAlertDoc (db : DB) (a : EmergencyAlert) : DB :=
  { db with alerts := db.alerts.map (fun x => if x.id == a.id then a else x) }

/-- `Incident.countDocuments({station, status: {$in: statuses}})`. -/
def countIncidentsIn (db : DB) (sid : Nat) (statuses : List String) : Nat :=
  (db.incidents.filter (fun x => x.station == some sid && statuses.contains x.status)).length

/-- The status set used by the incident controller's recomputes. -/
def canonicalLive : List String := ["pending", "active", "dispatched", "on_scene"]

/-- The status set used by the incident-creation step inside
`updateEmergencyAlert` / `dispatchEmergencyAlert` (note: no "pending"). -/
def narrowLive : List String := ["active", "dispatched", "on_scene"]

/-- Recompute-and-persist of `hasActiveIncident` by live count over the
given status set. -/
def setHasActiveIncident (db : DB) (sid : Nat) (statuses : List String) : DB :=
  updateStations db sid
    (fun s => { s with hasActiveIncident := decide (0 < countIncidentsIn db sid statuses) })

/-- `EmergencyAlert.countDocuments({station, status: {$in: ['active','pending']}})`. -/
def countOpenAlerts (db : DB) (sid : Nat) : Nat :=
  (db.alerts.filter
    (fun a => a.station == some sid && (a.status == "active" || a.status == "pending"))).length

/-- Recompute-and-persist of `hasActiveAlert` by live count. -/
def recomputeHasActiveAlert (db : DB) (sid : Nat) : DB :=
  updateStations db sid
    (fun s => { s with hasActiveAlert := decide (0 < countOpenAlerts db sid) })

/-! ## UnitScheduler: activateUnit / deactivateUnit / autoDeactivateUnits -/

/-- Result of the activate endpoint; `conflictUnit` carries the
`activeUnit` payload of the conflict response. -/
structure ActivateResult where
  statusCode : Nat
  message : String
  conflictUnit : Option Nat
  db : DB
deriving DecidableEq, Repr

/-- `activateUnit` (unitController.js): only a unit of a department
literally named "operations" (case-insensitively) may be activated, and
only when no other unit of that department is already on duty. -/
def activateUnit (db : DB) (unitId : Nat) (now : Time) : ActivateResult :=
  match findUnit db unitId with
  | none => ⟨404, "Unit not found", none, db⟩
  | some u =>
    match findDepartment db u.department with
    | none => ⟨400, "Only Operations department units can be activated", none, db⟩
    | some dept =>
      if !(strLower dept.name == "operations") then
        ⟨400, "Only Operations department units can be activated", none, db⟩
      else
        match db.units.find? (fun v => v.department == u.department && v.isActive && !(v.id == unitId)) with
        | some activeUnit =>
          ⟨400,
           "Another unit (" ++ activeUnit.name ++
             ") is already active in this department. Only one unit can be active at a time.",
           some activeUnit.id, db⟩
        | none =>
          ⟨200, "Unit activated successfully", none,
           updateUnits db unitId (fun v => { v with isActive := true, activatedAt := some now })⟩

/-- Result of the deactivate endpoint; `nextDeactivationTime` carries
the threshold payload of the too-early response. -/
structure DeactivateResult where
  statusCode : Nat
  message : String
  nextDeactivationTime : Option Time
  db : DB
deriving DecidableEq, Repr

/-- Clearing a unit off duty (`{isActive: false, activatedAt: null}`). -/
def clearUnitFields (u : Unit) : Unit :=
  { u with isActive := false, activatedAt := none }

/-- `deactivateUnit` (unitController.js): a never-activated unit is
deactivated immediately; otherwise deactivation is allowed only from
07:00 on the day after activation. -/
def deactivateUnit (db : DB) (unitId : Nat) (now : Time) : DeactivateResult :=
  match findUnit db unitId with
  | none => ⟨404, "Unit not found", none, db⟩
  | some u =>
    match u.activatedAt with
    | none =>
      ⟨200, "Unit deactivated successfully", none, updateUnits db unitId clearUnitFields⟩
    | some act =>
      let threshold := nextDay7AM act
      if Time.lt now threshold then
        ⟨400, "Unit can only be deactivated after 7 AM the next day.", some threshold, db⟩
      else
        ⟨200, "Unit deactivated successfully", none, updateUnits db unitId clearUnitFields⟩

/-- Whether an on-duty unit is due for the automatic sweep at `now`:
it has an activation time and `now` is at or past 08:00 the next day. -/
def dueAt (now : Time) (u : Unit) : Bool :=
  match u.activatedAt with
  | none => false
  | some act => Time.le (nextDay8AM act) now

/-- The per-unit body of the sweep loop, iterating over the snapshot of
on-duty units.  Each due unit is saved individually; the source has no
per-unit try/catch, so a failing save propagates out of the whole
function (`saveOk` models which unit saves succeed). -/
def autoDeactivateLoop (todo : List Unit) (db : DB) (now : Time)
    (saveOk : Nat → Bool) (acc : List Nat) : Except String (DB × List Nat) :=
  match todo with
  | [] => Except.ok (db, acc.reverse)
  | u :: rest =>
    match u.activatedAt with
    | none => autoDeactivateLoop rest db now saveOk acc
    | some act =>
      if Time.le (nextDay8AM act) now then
        if saveOk u.id then
          autoDeactivateLoop rest (updateUnits db u.id clearUnitFields) now saveOk (u.id :: acc)
        else
          Except.error "unit save failed"
      else
        autoDeactivateLoop rest db now saveOk acc

/-- Return shape of the sweep: the count and the list of deactivated
units (identified here by id). -/
structure SweepResult where
  deactivatedCount : Nat
  deactivatedUnits : List Nat
deriving DecidableEq, Repr

/-- `autoDeactivateUnits` (unitController.js): scan all on-duty units
and force-deactivate those past 08:00 on the day after activation. -/
def autoDeactivateUnits (db : DB) (now : Time) (saveOk : Nat → Bool) :
    Except String (DB × SweepResult) :=
  match autoDeactivateLoop (db.units.filter (fun u => u.isActive)) db now saveOk [] with
  | Except.ok (db2, lst) => Except.ok (db2, ⟨lst.length, lst⟩)
  | Except.error e => Except.error e

/-! ## Incident save pipeline (Incident.js pre-save middleware) -/

/-- Stand-in for the opaque turnout-slip generator
(`generateTurnoutSlip(alert)` in turnoutSlipService.js, external to the
lifecycle engine): an abstract value determined by the alert. -/
def generateTurnoutSlip (a : EmergencyAlert) : Nat := a.id

/-- The dispatched-entry timestamp assignment of the status hook:
set `dispatchedAt` only if unset. -/
def setDispatchedAtIfUnset (inc : Incident) (now : Time) : Incident :=
  if inc.dispatchedAt.isNone then { inc with dispatchedAt := some now } else inc

/-- The turnout-slip synthesis of the status hook: generate and store a
slip only when none exists yet. -/
def addTurnoutSlipIfAbsent (inc : Incident) (alert : EmergencyAlert) : Incident :=
  if inc.turnoutSlip.isNone then { inc with turnoutSlip := some (generateTurnoutSlip alert) }
  else inc

/-- The status side-effect hook of the incident schema: on a (modified)
status, set the matching operational timestamp only if unset, and on
"dispatched" also synthesize the turnout slip only if absent. -/
def incidentStatusHook (inc : Incident) (alert : EmergencyAlert) (now : Time) : Incident :=
  if inc.status == "dispatched" then
    addTurnoutSlipIfAbsent (setDispatchedAtIfUnset inc now) alert
  else if inc.status == "on_scene" then
    if inc.arrivedAt.isNone then { inc with arrivedAt := some now } else inc
  else if inc.status == "resolved" then
    if inc.resolvedAt.isNone then { inc with resolvedAt := some now } else inc
  else if inc.status == "closed" then
    if inc.closedAt.isNone then { inc with closedAt := some now } else inc
  else inc

/-- The station auto-fill of the first pre-save hook: when the incident
has no station and the referenced alert has one, copy it. -/
def autofillStation (inc : Incident) (alertStation : Option Nat) : Incident :=
  match inc.station, alertStation with
  | none, some s => { inc with station := some s }
  | _, _ => inc

/-- The save pipeline of the incident schema.  Mongoose runs `validate`
as a built-in pre('save') hook ahead of every user-defined pre('save')
hook, so the schema's `required` check on `station` fires first; only
then do the user hooks run in declared order: the referenced alert must
exist (the hook's station auto-fill line is consequently dead code for
unset-station saves), the referenced department and unit must exist,
then the status hook runs when the status path was modified. -/
def runIncidentPreSave (db : DB) (inc : Incident) (statusModified : Bool) (now : Time) :
    Except String Incident :=
  if inc.station.isNone then Except.error "Station is required"
  else
    match findAlert db inc.alertId with
    | none => Except.error "Referenced alert does not exist"
    | some alert =>
      let inc1 := autofillStation inc alert.station
      match findDepartment db inc1.departmentOnDuty with
      | none => Except.error "Referenced department does not exist"
      | some _ =>
        match findUnit db inc1.unitOnDuty with
        | none => Except.error "Referenced unit does not exist"
        | some _ =>
          Except.ok (if statusModified then incidentStatusHook inc1 alert now else inc1)

/-- Insertion of a new incident document. -/
def appendIncident (db : DB) (inc : Incident) : DB :=
  { db with incidents := db.incidents ++ [inc] }

/-- `incident.save()` on a newly constructed document: every set path of
a new document counts as modified, so the status hook runs. -/
def saveNewIncident (db : DB) (inc : Incident) (now : Time) :
    Except String (DB × Incident) :=
  match runIncidentPreSave db inc true now with
  | Except.error e => Except.error e
  | Except.ok inc2 => Except.ok (appendIncident db inc2, inc2)

/-- Replacement of the matching incident document on save. -/
def replaceIncident (db : DB) (key : Nat) (incNew : Incident) : DB :=
  { db with incidents := db.incidents.map (fun j => if j.id == key then incNew else j) }

/-- `incident.save()` on a fetched document: the status hook runs only
when the status was assigned a different value (`isModified('status')`). -/
def saveExistingIncident (db : DB) (inc : Incident) (statusModified : Bool) (now : Time) :
    Except String (DB × Incident) :=
  match runIncidentPreSave db inc statusModified now with
  | Except.error e => Except.error e
  | Except.ok inc2 => Except.ok (replaceIncident db inc.id inc2, inc2)

/-! ## Incident controller -/

/-- Response shape shared by the incident endpoints. -/
structure IncidentOpResult where
  statusCode : Nat
  message : String
  db : DB
deriving DecidableEq, Repr

/-- Request body of the create-incident endpoint; `Option` fields are
absent JSON fields, the `Valid` booleans model ObjectId format checks. -/
structure CreateIncidentBody where
  alertId : Option Nat
  alertIdValid : Bool
  departmentOnDuty : Option Nat
  deptValid : Bool
  unitOnDuty : Option Nat
  unitValid : Bool
  status : Option String
  dispatchedAt : Option Time
  arrivedAt : Option Time
  resolvedAt : Option Time
  closedAt : Option Time
deriving DecidableEq, Repr

/-- `createIncident` (incidentController.js): commission pre-check, field
validation, alert lookup, station taken from the alert, save through the
schema hooks, then recompute of the station's `hasActiveIncident` over
{pending, active, dispatched, on_scene}. -/
def createIncident (db : DB) (body : CreateIncidentBody) (freshId : Nat) (now : Time) :
    IncidentOpResult :=
  let commissionBlocked :=
    match body.alertId with
    | none => false
    | some aid =>
      match findAlert db aid with
      | none => false
      | some alert =>
        match alert.station with
        | none => false
        | some sid =>
          match findStation db sid with
          | none => false
          | some st => st.status == "out of commission"
  if commissionBlocked then
    ⟨400, "Cannot create incident: Station is out of commission", db⟩
  else if body.alertId.isNone || body.departmentOnDuty.isNone || body.unitOnDuty.isNone then
    ⟨400, "Missing required fields: alertId, departmentOnDuty, unitOnDuty", db⟩
  else if !body.alertIdValid then ⟨400, "Invalid alert ID format", db⟩
  else if !body.deptValid then ⟨400, "Invalid department ID format", db⟩
  else if !body.unitValid then ⟨400, "Invalid unit ID format", db⟩
  else
    match body.alertId, body.departmentOnDuty, body.unitOnDuty with
    | some aid, some did, some uid =>
      (match findAlert db aid with
       | none => ⟨404, "Alert not found", db⟩
       | some alert =>
         let inc : Incident :=
           { id := freshId, alertId := aid, station := alert.station,
             departmentOnDuty := did, unitOnDuty := uid,
             status := body.status.getD "pending",
             turnoutSlip := none,
             dispatchedAt := body.dispatchedAt, arrivedAt := body.arrivedAt,
             resolvedAt := body.resolvedAt, closedAt := body.closedAt }
         match saveNewIncident db inc now with
         | Except.error e => ⟨500, e, db⟩
         | Except.ok (db2, inc2) =>
           let db3 :=
             match inc2.station with
             | some sid => setHasActiveIncident db2 sid canonicalLive
             | none => db2
           ⟨201, "Incident created successfully", db3⟩)
    | _, _, _ => ⟨400, "Missing required fields: alertId, departmentOnDuty, unitOnDuty", db⟩

/-- The valid target statuses of the status-update endpoint. -/
def validStatuses : List String :=
  ["pending", "active", "dispatched", "on_scene", "resolved", "closed"]

/-- The controller-side timestamp assignment of `updateIncidentStatus`:
for the four timestamped statuses, set the matching field only if unset,
using the request timestamp when provided. -/
def applyStatusTimestamp (inc : Incident) (st : String) (ts : Time) : Incident :=
  if st == "dispatched" then
    if inc.dispatchedAt.isNone then { inc with dispatchedAt := some ts } else inc
  else if st == "on_scene" then
    if inc.arrivedAt.isNone then { inc with arrivedAt := some ts } else inc
  else if st == "resolved" then
    if inc.resolvedAt.isNone then { inc with resolvedAt := some ts } else inc
  else if st == "closed" then
    if inc.closedAt.isNone then { inc with closedAt := some ts } else inc
  else inc

/-- `updateIncidentStatus` (incidentController.js): validate the status,
assign it, set the matching timestamp if unset, save through the schema
hooks (which run their own status side effects only when the assigned
status differs from the stored one), then recompute the station's
`hasActiveIncident` over {pending, active, dispatched, on_scene}. -/
def updateIncidentStatus (db : DB) (i : Nat) (validId : Bool)
    (status : Option String) (timestamp : Option Time) (now : Time) : IncidentOpResult :=
  if !validId then ⟨400, "Invalid incident ID format", db⟩
  else
    match status with
    | none => ⟨400, "Status is required", db⟩
    | some st =>
      if !(validStatuses.contains st) then
        ⟨400, "Status must be one of: pending, active, dispatched, on_scene, resolved, closed", db⟩
      else
        match findIncident db i with
        | none => ⟨404, "Incident not found", db⟩
        | some inc =>
          let statusModified := !(inc.status == st)
          let inc2 := applyStatusTimestamp { inc with status := st } st (timestamp.getD now)
          match saveExistingIncident db inc2 statusModified now with
          | Except.error e => ⟨500, e, db⟩
          | Except.ok (db2, inc3) =>
            let db3 :=
              match inc3.station with
              | some sid => setHasActiveIncident db2 sid canonicalLive
              | none => db2
            ⟨200, "Incident status updated successfully", db3⟩

/-- `deleteIncident` (incidentController.js): remove the document, then
recompute the station's `hasActiveIncident` over
{pending, active, dispatched, on_scene}. -/
def deleteIncident (db : DB) (i : Nat) (validId : Bool) : IncidentOpResult :=
  if !validId then ⟨400, "Invalid incident ID format", db⟩
  else
    match findIncident db i with
    | none => ⟨404, "Incident not found", db⟩
    | some inc =>
      let db1 := { db with incidents := db.incidents.filter (fun j => !(j.id == i)) }
      let db2 :=
        match inc.station with
        | some sid => setHasActiveIncident db1 sid canonicalLive
        | none => db1
      ⟨200, "Incident deleted successfully", db2⟩

/-! ## AlertLifecycle: emergencyAlertController.js -/

/-- Case-insensitive test for the `/operations/i` department-name regex:
the lowered name contains "operations" as a substring. -/
def containsOperations (s : String) : Bool :=
  charsContain "operations".data (strLower s).data

/-- Whether the alert's assigned unit exists (populate succeeds) and is
on duty — the `!emergencyAlert.unit || !emergencyAlert.unit.isActive`
guard of dispatch/decline/refer. -/
def alertUnitIsActive (db : DB) (a : EmergencyAlert) : Bool :=
  match a.unit with
  | none => false
  | some uid =>
    match findUnit db uid with
    | none => false
    | some u => u.isActive

/-- The incident-materialization block duplicated verbatim inside
`updateEmergencyAlert` and `dispatchEmergencyAlert` (both call sites run
the same steps): locate the station's operations department, locate its
active unit, create a pending incident, and on a successful save
recompute the station's `hasActiveIncident` over
{active, dispatched, on_scene} — the narrow set, without "pending".
Every failure (missing station, department, unit, or a failing save) is
logged and swallowed: the store is returned unchanged. -/
def createIncidentAfterAccept (db : DB) (stationOpt : Option Nat) (alertId : Nat)
    (freshId : Nat) (now : Time) : DB :=
  match stationOpt with
  | none => db
  | some sid =>
    match db.departments.find? (fun d => d.station_id == sid && containsOperations d.name) with
    | none => db
    | some dept =>
      match db.units.find? (fun u => u.department == dept.id && u.isActive) with
      | none => db
      | some au =>
        let inc : Incident :=
          { id := freshId, alertId := alertId, station := some sid,
            departmentOnDuty := dept.id, unitOnDuty := au.id, status := "pending",
            turnoutSlip := none, dispatchedAt := none, arrivedAt := none,
            resolvedAt := none, closedAt := none }
        match saveNewIncident db inc now with
        | Except.error _ => db
        | Except.ok (db2, _) => setHasActiveIncident db2 sid narrowLive

/-- Response shape shared by the alert endpoints. -/
structure AlertOpResult where
  statusCode : Nat
  message : String
  db : DB
deriving DecidableEq, Repr

/-- `dispatchEmergencyAlert`: requires an assigned active unit and all
three terminal flags false; sets dispatched/dispatchedAt/accepted, then
(when the alert was not already accepted) materializes an incident, and
finally recomputes the station's `hasActiveAlert`. -/
def dispatchEmergencyAlert (db : DB) (reportId : Nat) (validId : Bool)
    (now : Time) (freshIncidentId : Nat) : AlertOpResult :=
  if !validId then ⟨400, "Invalid emergency alert ID format", db⟩
  else
    match findAlert db reportId with
    | none => ⟨404, "Emergency alert not found", db⟩
    | some alert =>
      if !(alertUnitIsActive db alert) then
        ⟨400, "Emergency alert must be assigned to an active unit before dispatch", db⟩
      else if alert.dispatched then
        ⟨400, "Emergency alert has already been dispatched", db⟩
      else if alert.declined then
        ⟨400, "Emergency alert has already been declined. Cannot dispatch a declined alert.", db⟩
      else if alert.referred then
        ⟨400,
         "Emergency alert has already been referred to another station. Cannot dispatch a referred alert.",
         db⟩
      else
        let wasAlreadyAccepted := alert.status == "accepted"
        let alert2 := { alert with dispatched := true, dispatchedAt := some now, status := "accepted" }
        let db1 := saveAlertDoc db alert2
        let db2 :=
          if !wasAlreadyAccepted then
            createIncidentAfterAccept db1 alert2.station reportId freshIncidentId now
          else db1
        let db3 :=
          match alert2.station with
          | some sid => recomputeHasActiveAlert db2 sid
          | none => db2
        ⟨200, "Emergency alert dispatched successfully", db3⟩

/-- Emptiness test of a reason string (`!reason || reason.trim().length === 0`). -/
def reasonMissing (reason : Option String) : Bool :=
  match reason with
  | none => true
  | some r => (strTrim r).data.isEmpty

/-- `declineEmergencyAlert`: mandatory reason, assigned active unit, all
terminal flags false; sets declined/declinedAt/declineReason. -/
def declineEmergencyAlert (db : DB) (reportId : Nat) (validId : Bool)
    (reason : Option String) (now : Time) : AlertOpResult :=
  if !validId then ⟨400, "Invalid emergency alert ID format", db⟩
  else if reasonMissing reason then ⟨400, "Decline reason is required", db⟩
  else
    match findAlert db reportId with
    | none => ⟨404, "Emergency alert not found", db⟩
    | some alert =>
      if !(alertUnitIsActive db alert) then
        ⟨400, "Emergency alert must be assigned to an active unit before declining", db⟩
      else if alert.dispatched then
        ⟨400, "Emergency alert has already been dispatched. Cannot decline a dispatched alert.", db⟩
      else if alert.declined then
        ⟨400, "Emergency alert has already been declined", db⟩
      else if alert.referred then
        ⟨400, "Emergency alert has already been referred. Cannot decline a referred alert.", db⟩
      else
        let alert2 :=
          { alert with declined := true, declinedAt := some now,
                       declineReason := some (strTrim (reason.getD "")) }
        ⟨200, "Emergency alert declined successfully", saveAlertDoc db alert2⟩

/-- `referEmergencyAlert`: mandatory existing distinct target station and
reason, assigned active unit, all terminal flags false; sets the referral
fields, moves the alert to the target station and clears unit/department. -/
def referEmergencyAlert (db : DB) (reportId : Nat) (validId : Bool)
    (stationId : Option Nat) (stationIdValid : Bool) (reason : Option String)
    (now : Time) : AlertOpResult :=
  if !validId then ⟨400, "Invalid emergency alert ID format", db⟩
  else
    match stationId with
    | none => ⟨400, "Station ID is required", db⟩
    | some target =>
      if !stationIdValid then ⟨400, "Invalid station ID format", db⟩
      else if reasonMissing reason then ⟨400, "Refer reason is required", db⟩
      else
        match findStation db target with
        | none => ⟨404, "Referred station not found", db⟩
        | some _ =>
          match findAlert db reportId with
          | none => ⟨404, "Emergency alert not found", db⟩
          | some alert =>
            if !(alertUnitIsActive db alert) then
              ⟨400, "Emergency alert must be assigned to an active unit before referring", db⟩
            else if alert.station == some target then
              ⟨400, "Cannot refer emergency alert to the same station", db⟩
            else if alert.dispatched then
              ⟨400, "Emergency alert has already been dispatched. Cannot refer a dispatched alert.", db⟩
            else if alert.declined then
              ⟨400, "Emergency alert has already been declined. Cannot refer a declined alert.", db⟩
            else if alert.referred then
              ⟨400, "Emergency alert has already been referred to another station", db⟩
            else
              let alert2 :=
                { alert with referred := true, referredAt := some now,
                             referredToStation := some target,
                             referReason := some (strTrim (reason.getD "")),
                             station := some target, unit := none, department := none }
              ⟨200, "Emergency alert referred successfully", saveAlertDoc db alert2⟩

/-- The update-request body of `updateEmergencyAlert`, restricted to the
lifecycle fields; a `some` field is present in the JSON patch. -/
structure UpdatePatch where
  status : Option String
  dispatched : Option Bool
  declined : Option Bool
  referred : Option Bool
  dispatchedAt : Option Time
  declinedAt : Option Time
  referredAt : Option Time
deriving DecidableEq, Repr

/-- `findByIdAndUpdate` field merge: present patch fields overwrite. -/
def applyPatch (a : EmergencyAlert) (p : UpdatePatch) : EmergencyAlert :=
  { a with
    status := p.status.getD a.status,
    dispatched := p.dispatched.getD a.dispatched,
    declined := p.declined.getD a.declined,
    referred := p.referred.getD a.referred,
    dispatchedAt := match p.dispatchedAt with | some t => some t | none => a.dispatchedAt,
    declinedAt := match p.declinedAt with | some t => some t | none => a.declinedAt,
    referredAt := match p.referredAt with | some t => some t | none => a.referredAt }

/-- `updateEmergencyAlert`: generic merge with status-transition side
effects.  A patch status of accepted/rejected/referred (after trim and
lowercasing) auto-sets the matching flag and timestamp into the patch;
a transition into accepted from a non-accepted stored status triggers
the incident materialization; afterwards the station's `hasActiveAlert`
is recomputed.  No terminal-flag check is performed anywhere. -/
def updateEmergencyAlert (db : DB) (i : Nat) (validId : Bool) (patch : UpdatePatch)
    (now : Time) (freshIncidentId : Nat) : AlertOpResult :=
  if !validId then ⟨400, "Invalid emergency alert ID format", db⟩
  else
    match findAlert db i with
    | none => ⟨404, "Emergency alert not found", db⟩
    | some currentAlert =>
      let newStatus : Option String := patch.status.map (fun s => strLower (strTrim s))
      let currentStatus : String := strLower (strTrim currentAlert.status)
      let changingToAccepted := newStatus == some "accepted" && !(currentStatus == "accepted")
      let patch1 :=
        if newStatus == some "accepted" && patch.dispatchedAt.isNone then
          { patch with dispatchedAt := some now, dispatched := some true, status := some "accepted" }
        else patch
      let patch2 :=
        if newStatus == some "rejected" && patch1.declinedAt.isNone then
          { patch1 with declinedAt := some now, declined := some true, status := some "rejected" }
        else patch1
      let patch3 :=
        if newStatus == some "referred" && patch2.referredAt.isNone then
          { patch2 with referredAt := some now, referred := some true, status := some "referred" }
        else patch2
      let alert2 := applyPatch currentAlert patch3
      let db1 := saveAlertDoc db alert2
      let db2 :=
        if changingToAccepted then
          createIncidentAfterAccept db1 currentAlert.station i freshIncidentId now
        else db1
      let db3 :=
        match alert2.station with
        | some sid => recomputeHasActiveAlert db2 sid
        | none => db2
      ⟨200, "Emergency alert updated successfully", db3⟩

/-! ## Alert creation service (emergencyAlertService.js) -/

/-- The `station` field of a create-alert request: absent, a string id
(with its ObjectId format validity), an object carrying `_id`, or a
descriptor object with optional placeId / coordinates / name. -/
inductive StationField
  | missing : StationField
  | strId : Nat → Bool → StationField
  | objWithId : Nat → StationField
  | objDesc : Option String → Option (Int × Int) → Option String → StationField
deriving DecidableEq, Repr

/-- Create-alert request; the boolean fields record presence of the
non-station payload fields the service validates. -/
structure AlertRequest where
  hasIncidentType : Bool
  hasIncidentName : Bool
  hasLocation : Bool
  hasCoordinates : Bool
  station : StationField
  userId : Option Nat
  userIdValid : Bool
deriving DecidableEq, Repr

/-- The station-id resolution the service performs before its guard
checks: a valid string id, an object's `_id`, or a placeId lookup.
Descriptors with only coordinates or a name resolve to nothing here, so
the guard block is skipped for them. -/
def resolveStationPre (db : DB) (sf : StationField) : Option Nat :=
  match sf with
  | StationField.missing => none
  | StationField.strId sid valid => if valid then some sid else none
  | StationField.objWithId sid => some sid
  | StationField.objDesc placeId _ _ =>
    match placeId with
    | some p => (db.stations.find? (fun s => s.placeId == some p)).map (fun s => s.id)
    | none => none

/-- Case-insensitive name-regex lookup used by the late station
resolution (`name: {$regex: new RegExp(station.name, 'i')}`), for
plain-text query strings: substring containment after lowercasing. -/
def stationNameMatches (stationName query : String) : Bool :=
  charsContain (strLower query).data (strLower stationName).data

/-- The late station resolution of the service (only reached when the
pre-guard resolution produced nothing): invalid string ids are rejected,
descriptors are resolved by placeId, then coordinates, then fuzzy name. -/
def resolveStationLate (db : DB) (sf : StationField) : Except (Nat × String) Nat :=
  match sf with
  | StationField.missing =>
    Except.error (400, "Station must be either a valid ObjectId or a station object with details")
  | StationField.strId sid valid =>
    if valid then Except.ok sid
    else Except.error (400, "Invalid station ID format")
  | StationField.objWithId sid => Except.ok sid
  | StationField.objDesc placeId coords nm =>
    let byPlace : Option Station :=
      match placeId with
      | some p => db.stations.find? (fun s => s.placeId == some p)
      | none => none
    let byCoords : Option Station :=
      match byPlace with
      | some s => some s
      | none =>
        match coords with
        | some (la, ln) => db.stations.find? (fun s => s.lat == some la && s.lng == some ln)
        | none => none
    let byName : Option Station :=
      match byCoords with
      | some s => some s
      | none =>
        match nm with
        | some q => db.stations.find? (fun s => stationNameMatches s.name q)
        | none => none
    match byName with
    | some s => Except.ok s.id
    | none => Except.error (404, "Station not found. Please ensure the station exists in the system.")

/-- Result of the create-alert service. -/
structure CreateAlertResult where
  success : Bool
  statusCode : Nat
  message : String
  db : DB
deriving DecidableEq, Repr

/-- The busy-check status set of the service guard (note the hyphenated
"en-route"/"on-scene", which are not incident statuses the rest of the
system ever writes). -/
def guardLive : List String := ["pending", "active", "dispatched", "en-route", "on-scene"]

/-- `createEmergencyAlertService`: station guard (existence, commission
status, busy re-check, duplicate-alert re-check) — run only when the
station resolves before the guard — then field validation, reporter
probing, late station resolution, alert persistence with status
"active", and the station's `hasActiveAlert` set to true. -/
def createEmergencyAlertService (db : DB) (req : AlertRequest) (freshAlertId : Nat) :
    CreateAlertResult :=
  let afterGuard : Option Nat → CreateAlertResult := fun preResolved =>
    if !req.hasIncidentType || !req.hasIncidentName || !req.hasLocation ||
       req.station == StationField.missing || req.userId.isNone then
      ⟨false, 400, "Missing required fields: incidentType, incidentName, location, station, userId", db⟩
    else if !req.hasCoordinates then
      ⟨false, 400, "Location coordinates (latitude, longitude) are required", db⟩
    else if !req.userIdValid then
      ⟨false, 400, "Invalid user ID format", db⟩
    else
      match req.userId with
      | none => ⟨false, 400, "Missing required fields: incidentType, incidentName, location, station, userId", db⟩
      | some uid =>
        if !(db.users.contains uid || db.firePersonnel.contains uid) then
          ⟨false, 404, "User ID not found. The provided ID does not exist in Users or FirePersonnel", db⟩
        else
          let resolved : Except (Nat × String) Nat :=
            match preResolved with
            | some sid => Except.ok sid
            | none => resolveStationLate db req.station
          match resolved with
          | Except.error (code, msg) => ⟨false, code, msg, db⟩
          | Except.ok sid =>
            let alert : EmergencyAlert :=
              { id := freshAlertId, station := some sid, department := none, unit := none,
                status := "active", dispatched := false, declined := false, referred := false,
                dispatchedAt := none, declinedAt := none, referredAt := none,
                declineReason := none, referReason := none, referredToStation := none }
            let db1 := { db with alerts := db.alerts ++ [alert] }
            let db2 := updateStations db1 sid (fun s => { s with hasActiveAlert := true })
            ⟨true, 201, "Emergency alert created successfully", db2⟩
  match resolveStationPre db req.station with
  | none => afterGuard none
  | some sid =>
    match findStation db sid with
    | none => ⟨false, 404, "Station not found", db⟩
    | some st =>
      if st.status == "out of commission" then
        ⟨false, 400, "Cannot create alert: Station is out of commission", db⟩
      else if st.hasActiveIncident &&
              (db.incidents.any (fun x => x.station == some sid && guardLive.contains x.status)) then
        ⟨false, 409,
         "Station is currently busy with an active incident. Please try again later or contact another station.",
         db⟩
      else if st.hasActiveAlert &&
              (db.alerts.any
                (fun a => a.station == some sid && (a.status == "active" || a.status == "pending"))) then
        ⟨false, 400, "Cannot create alert: Station already has an active alert", db⟩
      else afterGuard (some sid)

/-! ## Helper lemmas about the store combinators -/

lemma find_over_update {α : Type} (p : α → Bool) (f : α → α)
    (hf : ∀ a, p a = true → p (f a) = true) (l : List α) :
    (l.map (fun a => if p a then f a else a)).find? p = (l.find? p).map f := by
  induction l with
  | nil => rfl
  | cons a t ih =>
    simp only [List.map_cons]
    by_cases h : p a = true
    · rw [if_pos h, List.find?_cons_of_pos _ (hf a h), List.find?_cons_of_pos _ h]
      rfl
    · rw [if_neg h, List.find?_cons_of_neg _ (by simpa using h),
          List.find?_cons_of_neg _ (by simpa using h)]
      exact ih

lemma findUnit_updateUnits (db : DB) (i : Nat) (f : Unit → Unit)
    (hf : ∀ u, (f u).id = u.id) :
    findUnit (updateUnits db i f) i = (findUnit db i).map f := by
  unfold findUnit updateUnits
  exact find_over_update _ f (fun u hu => by simpa [hf u] using hu) db.units

lemma findStation_updateStations (db : DB) (i : Nat) (f : Station → Station)
    (hf : ∀ s, (f s).id = s.id) :
    findStation (updateStations db i f) i = (findStation db i).map f := by
  unfold findStation updateStations
  exact find_over_update _ f (fun s hs => by simpa [hf s] using hs) db.stations

/-! ## C6 / C7 / C9 theorems -/

/-- C6: `activateUnit` succeeds (setting `isActive` and `activatedAt`)
only for a unit whose department is named "operations" under
case-insensitive exact comparison; when another unit of the department
is already on duty it fails with a conflict response naming that unit
and leaves the store — in particular the unit being activated —
unchanged. -/
theorem activateUnit_spec (db : DB) (unitId : Nat) (now : Time) (u : Unit)
    (dept : Department)
    (hu : findUnit db unitId = some u)
    (hd : findDepartment db u.department = some dept) :
    (¬ strLower dept.name = "operations" →
      activateUnit db unitId now =
        ⟨400, "Only Operations department units can be activated", none, db⟩)
    ∧ (strLower dept.name = "operations" →
       ∀ v, db.units.find?
              (fun w => w.department == u.department && w.isActive && !(w.id == unitId)) = some v →
         activateUnit db unitId now =
           ⟨400,
            "Another unit (" ++ v.name ++
              ") is already active in this department. Only one unit can be active at a time.",
            some v.id, db⟩)
    ∧ (strLower dept.name = "operations" →
       db.units.find?
         (fun w => w.department == u.department && w.isActive && !(w.id == unitId)) = none →
         ∃ db2, activateUnit db unitId now = ⟨200, "Unit activated successfully", none, db2⟩ ∧
           findUnit db2 unitId = some { u with isActive := true, activatedAt := some now }) := by
  have hops' : ∀ _ : strLower dept.name = "operations",
      (strLower dept.name == "operations") = true := fun h => by simp [h]
  refine ⟨?_, ?_, ?_⟩
  · intro hops
    have hb : (strLower dept.name == "operations") = false := by
      simpa using hops
    simp [activateUnit, hu, hd, hb]
  · intro hops v hv
    simp [activateUnit, hu, hd, hops' hops, hv]
  · intro hops hnone
    simp only [activateUnit, hu, hd, hops' hops, hnone, Bool.not_true, if_neg]
    refine ⟨_, rfl, ?_⟩
    rw [findUnit_updateUnits db unitId
          (fun v => { v with isActive := true, activatedAt := some now }) (fun v => rfl), hu]
    rfl

/-- Concrete one-unit store for the activate/deactivate witnesses. -/
def exActivateDb : DB :=
  { stations := [], alerts := [], incidents := [],
    units := [⟨2, "Alpha", 3, false, none⟩],
    departments := [⟨3, "Operations", 0⟩], users := [], firePersonnel := [] }

/-- Witness for `activateUnit_spec` at a concrete store. -/
theorem activateUnit_spec_witness :
    ∃ db2, activateUnit exActivateDb 2 ⟨4, 60⟩ = ⟨200, "Unit activated successfully", none, db2⟩ ∧
      findUnit db2 2 = some ⟨2, "Alpha", 3, true, some ⟨4, 60⟩⟩ := by
  have h := activateUnit_spec exActivateDb 2 ⟨4, 60⟩ ⟨2, "Alpha", 3, false, none⟩
    ⟨3, "Operations", 0⟩ (by decide) (by decide)
  exact h.2.2 (by decide) (by decide)

lemma time_le_iff_not_lt (a b : Time) : Time.le a b = true ↔ Time.lt b a = false := by
  have hle : (Time.le a b = true) ↔ (a.day < b.day ∨ (a.day = b.day ∧ a.minute ≤ b.minute)) := by
    simp [Time.le, Nat.blt_eq, Nat.ble_eq]
  have hlt : (Time.lt b a = true) ↔ (b.day < a.day ∨ (b.day = a.day ∧ b.minute < a.minute)) := by
    simp [Time.lt, Nat.blt_eq]
  rw [hle, ← Bool.not_eq_true, hlt]
  omega

/-- C7: `deactivateUnit` on a never-activated unit succeeds immediately
and idempotently (both duty fields cleared); on an activated unit it is
rejected with the 07:00-next-day threshold in the payload while the
current time is before that threshold (store unchanged), and succeeds —
clearing `isActive` and `activatedAt` — from the threshold onwards. -/
theorem deactivateUnit_spec (db : DB) (unitId : Nat) (now : Time) (u : Unit)
    (hu : findUnit db unitId = some u) :
    (u.activatedAt = none →
      ∃ db2, deactivateUnit db unitId now = ⟨200, "Unit deactivated successfully", none, db2⟩ ∧
        findUnit db2 unitId = some (clearUnitFields u))
    ∧ (∀ act, u.activatedAt = some act → Time.lt now (nextDay7AM act) = true →
        deactivateUnit db unitId now =
          ⟨400, "Unit can only be deactivated after 7 AM the next day.", some (nextDay7AM act), db⟩)
    ∧ (∀ act, u.activatedAt = some act → Time.le (nextDay7AM act) now = true →
        ∃ db2, deactivateUnit db unitId now = ⟨200, "Unit deactivated successfully", none, db2⟩ ∧
          findUnit db2 unitId = some (clearUnitFields u)) := by
  refine ⟨?_, ?_, ?_⟩
  · intro hact
    simp only [deactivateUnit, hu, hact]
    refine ⟨_, rfl, ?_⟩
    rw [findUnit_updateUnits db unitId clearUnitFields (fun v => rfl), hu]
    rfl
  · intro act hact hlt
    simp [deactivateUnit, hu, hact, hlt]
  · intro act hact hle
    have hlt : Time.lt now (nextDay7AM act) = false := (time_le_iff_not_lt _ _).mp hle
    simp only [deactivateUnit, hu, hact, hlt, Bool.false_eq_true, if_false]
    refine ⟨_, rfl, ?_⟩
    rw [findUnit_updateUnits db unitId clearUnitFields (fun v => rfl), hu]
    rfl

/-- Concrete activated unit for the deactivate witness: activated on
day 10 at 09:00; deactivation at day 11 07:30 (past the 07:00
threshold) succeeds. -/
def exDeactivateDb : DB :=
  { stations := [], alerts := [], incidents := [],
    units := [⟨2, "Alpha", 3, true, some ⟨10, 9 * 60⟩⟩],
    departments := [⟨3, "Operations", 0⟩], users := [], firePersonnel := [] }

/-- Witness for `deactivateUnit_spec` at a concrete store and times on
both sides of the threshold. -/
theorem deactivateUnit_spec_witness :
    deactivateUnit exDeactivateDb 2 ⟨11, 6 * 60⟩ =
      ⟨400, "Unit can only be deactivated after 7 AM the next day.", some ⟨11, 7 * 60⟩, exDeactivateDb⟩
    ∧ ∃ db2, deactivateUnit exDeactivateDb 2 ⟨11, 7 * 60 + 30⟩ =
        ⟨200, "Unit deactivated successfully", none, db2⟩ ∧
      findUnit db2 2 = some (clearUnitFields ⟨2, "Alpha", 3, true, some ⟨10, 9 * 60⟩⟩) := by
  constructor
  · exact (deactivateUnit_spec exDeactivateDb 2 ⟨11, 6 * 60⟩ ⟨2, "Alpha", 3, true, some ⟨10, 9 * 60⟩⟩
      (by decide)).2.1 ⟨10, 9 * 60⟩ (by decide) (by decide)
  · exact (deactivateUnit_spec exDeactivateDb 2 ⟨11, 7 * 60 + 30⟩ ⟨2, "Alpha", 3, true, some ⟨10, 9 * 60⟩⟩
      (by decide)).2.2 ⟨10, 9 * 60⟩ (by decide) (by decide)

/-- C9: decline and refer both require an assigned on-duty unit (the
precondition the spec states only for accept/dispatch) and reject with a
400 naming that requirement before any terminal flag is examined — the
conclusion holds for every combination of the alert's terminal flags. -/
theorem declineRefer_unit_guard (db : DB) (reportId : Nat) (reason : Option String)
    (now : Time) (target : Nat) (a : EmergencyAlert) (st : Station)
    (ha : findAlert db reportId = some a)
    (hreason : reasonMissing reason = false)
    (hunit : alertUnitIsActive db a = false)
    (hts : findStation db target = some st) :
    declineEmergencyAlert db reportId true reason now =
      ⟨400, "Emergency alert must be assigned to an active unit before declining", db⟩
    ∧ referEmergencyAlert db reportId true (some target) true reason now =
      ⟨400, "Emergency alert must be assigned to an active unit before referring", db⟩ := by
  constructor
  · simp [declineEmergencyAlert, hreason, ha, hunit]
  · simp [referEmergencyAlert, hreason, hts, ha, hunit]

/-- Store for the C9 witness: a dispatched alert whose assigned unit is
off duty, plus a distinct referral target station. -/
def exGuardDb : DB :=
  { stations := [⟨0, "Central Fire Station", none, none, none, "in commission", false, false⟩,
                 ⟨9, "North Station", none, none, none, "in commission", false, false⟩],
    alerts := [⟨1, some 0, some 3, some 2, "accepted", true, false, false,
                some ⟨10, 600⟩, none, none, none, none, none⟩],
    incidents := [],
    units := [⟨2, "Alpha", 3, false, none⟩],
    departments := [⟨3, "Operations", 0⟩], users := [], firePersonnel := [] }

/-- Witness for `declineRefer_unit_guard`: the alert is already
dispatched, yet both operations report the missing-active-unit error,
showing the unit check precedes the terminal-flag checks. -/
theorem declineRefer_unit_guard_witness :
    declineEmergencyAlert exGuardDb 1 true (some "busy") ⟨11, 0⟩ =
      ⟨400, "Emergency alert must be assigned to an active unit before declining", exGuardDb⟩
    ∧ referEmergencyAlert exGuardDb 1 true (some 9) true (some "busy") ⟨11, 0⟩ =
      ⟨400, "Emergency alert must be assigned to an active unit before referring", exGuardDb⟩ :=
  declineRefer_unit_guard exGuardDb 1 (some "busy") ⟨11, 0⟩ 9
    ⟨1, some 0, some 3, some 2, "accepted", true, false, false, some ⟨10, 600⟩, none, none, none, none, none⟩
    ⟨9, "North Station", none, none, none, "in commission", false, false⟩
    (by decide) (by decide) (by decide) (by decide)

/-! ## C8: the automatic deactivation sweep -/

lemma autoDeactivateLoop_allOk (now : Time) :
    ∀ (todo : List Unit) (db : DB) (acc : List Nat),
    autoDeactivateLoop todo db now (fun _ => true) acc =
      Except.ok
        (todo.foldl (fun d u => if dueAt now u then updateUnits d u.id clearUnitFields else d) db,
         acc.reverse ++ (todo.filter (dueAt now)).map (fun u => u.id)) := by
  intro todo
  induction todo with
  | nil => intro db acc; simp [autoDeactivateLoop]
  | cons u rest ih =>
    intro db acc
    cases hact : u.activatedAt with
    | none => simp [autoDeactivateLoop, hact, dueAt, ih]
    | some act =>
      by_cases hdue : Time.le (nextDay8AM act) now = true
      · simp [autoDeactivateLoop, hact, hdue, ih, dueAt]
      · simp [autoDeactivateLoop, hact, hdue, ih, dueAt]

/-- Per-id clearing of the duty fields over a unit list. -/
def clearByIds (ids : List Nat) (l : List Unit) : List Unit :=
  ids.foldl (fun m i => m.map (fun v => if v.id == i then clearUnitFields v else v)) l

/-- Replace the units collection of a store. -/
def setUnits (db : DB) (l : List Unit) : DB := { db with units := l }

lemma foldl_clear_units (now : Time) :
    ∀ (todo : List Unit) (db : DB),
    todo.foldl (fun d u => if dueAt now u then updateUnits d u.id clearUnitFields else d) db =
      setUnits db (clearByIds ((todo.filter (dueAt now)).map (fun u => u.id)) db.units) := by
  intro todo
  induction todo with
  | nil => intro db; simp [setUnits, clearByIds]
  | cons u rest ih =>
    intro db
    by_cases hdue : dueAt now u = true
    · simp only [List.foldl_cons, hdue, if_pos, List.filter_cons_of_pos, List.map_cons]
      rw [ih]
      rfl
    · simp only [List.foldl_cons, hdue, Bool.false_eq_true, if_false,
        List.filter_cons_of_neg (by simpa using hdue)]
      exact ih db

lemma foldl_clear_by_ids :
    ∀ (ids : List Nat) (l : List Unit),
    clearByIds ids l = l.map (fun v => if ids.contains v.id then clearUnitFields v else v) := by
  intro ids
  induction ids with
  | nil => intro l; simp [clearByIds]
  | cons i rest ih =>
    intro l
    simp only [clearByIds, List.foldl_cons] at ih ⊢
    rw [ih, List.map_map]
    refine List.map_congr_left ?_
    intro u _
    by_cases h : u.id = i
    · simp [Function.comp, h, clearUnitFields]
    · simp only [Function.comp, List.contains_cons]
      have : (u.id == i) = false := by simpa using h
      simp [this]

/-- C8 (amended): with every save succeeding, the sweep returns exactly
the on-duty units whose activation is at or past 08:00 on the following
day (skipping on-duty units without an activation time), clears their
duty fields, touches nothing else, and reports their ids and count.
The per-unit error isolation the claim describes does not exist — a
single failing unit save aborts the whole sweep, as the counterexample
shows. -/
theorem autoDeactivateUnits_spec (db : DB) (now : Time)
    (hids : (db.units.map (fun u => u.id)).Nodup) :
    autoDeactivateUnits db now (fun _ => true) =
      Except.ok
        (setUnits db (db.units.map
             (fun u => if u.isActive && dueAt now u then clearUnitFields u else u)),
         ⟨((db.units.filter (fun u => u.isActive && dueAt now u)).map (fun u => u.id)).length,
          (db.units.filter (fun u => u.isActive && dueAt now u)).map (fun u => u.id)⟩) := by
  have hff : (db.units.filter (fun u => u.isActive)).filter (dueAt now) =
      db.units.filter (fun u => u.isActive && dueAt now u) := by
    rw [List.filter_filter]
    exact List.filter_congr (fun a _ => by rw [Bool.and_comm])
  have hmap : db.units.map
      (fun v => if ((db.units.filter (fun u => u.isActive && dueAt now u)).map (fun u => u.id)).contains v.id
                then clearUnitFields v else v) =
      db.units.map (fun u => if u.isActive && dueAt now u then clearUnitFields u else u) := by
    refine List.map_congr_left ?_
    intro u hu
    by_cases he : (u.isActive && dueAt now u) = true
    · have hc : ((db.units.filter (fun w => w.isActive && dueAt now w)).map (fun w => w.id)).contains u.id = true := by
        rw [List.contains_eq_any_beq]
        refine List.any_eq_true.mpr ⟨u.id, List.mem_map.mpr ⟨u, List.mem_filter.mpr ⟨hu, he⟩, rfl⟩, beq_self_eq_true u.id⟩
      rw [if_pos hc, if_pos he]
    · have hc : ((db.units.filter (fun w => w.isActive && dueAt now w)).map (fun w => w.id)).contains u.id = false := by
        refine Bool.eq_false_iff.mpr ?_
        intro hcon
        rw [List.contains_eq_any_beq] at hcon
        rcases List.any_eq_true.mp hcon with ⟨x, hxmem, hbeq⟩
        rcases List.mem_map.mp hxmem with ⟨v, hvf, rfl⟩
        rcases List.mem_filter.mp hvf with ⟨hv, hve⟩
        have hvid : (fun w : Unit => w.id) v = (fun w : Unit => w.id) u := by
          have huv : u.id = v.id := beq_iff_eq.mp hbeq
          simpa using huv.symm
        have hvu : v = u := List.inj_on_of_nodup_map hids hv hu hvid
        rw [hvu] at hve
        exact he hve
      rw [if_neg (by rw [hc]; exact Bool.false_ne_true), if_neg he]
  unfold autoDeactivateUnits
  rw [autoDeactivateLoop_allOk]
  simp only [List.reverse_nil, List.nil_append]
  rw [foldl_clear_units, foldl_clear_by_ids, hff, hmap]

/-- Two on-duty units both past the 08:00 auto threshold; the first
unit's save fails. -/
def exSweepDb : DB :=
  { stations := [], alerts := [], incidents := [],
    units := [⟨1, "U1", 3, true, some ⟨0, 9 * 60⟩⟩, ⟨2, "U2", 3, true, some ⟨0, 9 * 60⟩⟩],
    departments := [⟨3, "Operations", 0⟩], users := [], firePersonnel := [] }

/-- C8 counterexample: unit 2 is also due for deactivation, but a
failing save of unit 1 makes the whole sweep throw — the sweep does not
log-and-continue past an individual unit's failure as the claim says. -/
theorem autoDeactivateUnits_counterexample :
    dueAt ⟨2, 0⟩ ⟨2, "U2", 3, true, some ⟨0, 9 * 60⟩⟩ = true ∧
    autoDeactivateUnits exSweepDb ⟨2, 0⟩ (fun i => i != 1) = Except.error "unit save failed" :=
  ⟨rfl, rfl⟩

/-! ## Frame lemmas for the incident save pipeline -/

lemma autofillStation_frame (inc : Incident) (st : Option Nat) :
    (autofillStation inc st).id = inc.id ∧
    (autofillStation inc st).alertId = inc.alertId ∧
    (autofillStation inc st).departmentOnDuty = inc.departmentOnDuty ∧
    (autofillStation inc st).unitOnDuty = inc.unitOnDuty ∧
    (autofillStation inc st).status = inc.status ∧
    (autofillStation inc st).turnoutSlip = inc.turnoutSlip ∧
    (autofillStation inc st).dispatchedAt = inc.dispatchedAt ∧
    (autofillStation inc st).arrivedAt = inc.arrivedAt ∧
    (autofillStation inc st).resolvedAt = inc.resolvedAt ∧
    (autofillStation inc st).closedAt = inc.closedAt := by
  unfold autofillStation
  cases inc.station <;> cases st <;> simp

lemma autofillStation_of_some (inc : Incident) (st : Option Nat)
    (h : inc.station.isSome = true) : autofillStation inc st = inc := by
  unfold autofillStation
  rcases Option.isSome_iff_exists.mp h with ⟨s, hs⟩
  rw [hs]

lemma autofillStation_fill (inc : Incident) (s : Nat)
    (h : inc.station = none) : autofillStation inc (some s) = { inc with station := some s } := by
  unfold autofillStation
  rw [h]

lemma incidentStatusHook_frame (inc : Incident) (alert : EmergencyAlert) (now : Time) :
    (incidentStatusHook inc alert now).id = inc.id ∧
    (incidentStatusHook inc alert now).alertId = inc.alertId ∧
    (incidentStatusHook inc alert now).station = inc.station ∧
    (incidentStatusHook inc alert now).departmentOnDuty = inc.departmentOnDuty ∧
    (incidentStatusHook inc alert now).unitOnDuty = inc.unitOnDuty ∧
    (incidentStatusHook inc alert now).status = inc.status := by
  unfold incidentStatusHook addTurnoutSlipIfAbsent setDispatchedAtIfUnset
  split_ifs <;> simp_all

lemma incidentStatusHook_preserves (inc : Incident) (alert : EmergencyAlert) (now : Time) :
    (∀ t, inc.dispatchedAt = some t → (incidentStatusHook inc alert now).dispatchedAt = some t) ∧
    (∀ t, inc.arrivedAt = some t → (incidentStatusHook inc alert now).arrivedAt = some t) ∧
    (∀ t, inc.resolvedAt = some t → (incidentStatusHook inc alert now).resolvedAt = some t) ∧
    (∀ t, inc.closedAt = some t → (incidentStatusHook inc alert now).closedAt = some t) ∧
    (∀ sl, inc.turnoutSlip = some sl → (incidentStatusHook inc alert now).turnoutSlip = some sl) := by
  unfold incidentStatusHook addTurnoutSlipIfAbsent setDispatchedAtIfUnset
  split_ifs <;> simp_all

lemma runIncidentPreSave_ok (db : DB) (inc : Incident) (sm : Bool) (now : Time)
    (alert : EmergencyAlert)
    (ha : findAlert db inc.alertId = some alert)
    (hd : (findDepartment db inc.departmentOnDuty).isSome = true)
    (hu : (findUnit db inc.unitOnDuty).isSome = true)
    (hs : inc.station.isSome = true) :
    runIncidentPreSave db inc sm now =
      Except.ok (if sm then incidentStatusHook inc alert now else inc) := by
  have hn : inc.station.isNone = false := by
    rcases Option.isSome_iff_exists.mp hs with ⟨s, hs2⟩
    simp [hs2]
  unfold runIncidentPreSave
  rw [if_neg (by simp [hn]), ha]
  simp only []
  rw [autofillStation_of_some inc alert.station hs]
  rcases Option.isSome_iff_exists.mp hd with ⟨d, hd2⟩
  rcases Option.isSome_iff_exists.mp hu with ⟨u, hu2⟩
  rw [hd2, hu2]

/-- Store for the C10 counterexample and witness. -/
def exPreSaveDb : DB :=
  { stations := [⟨0, "Central Fire Station", none, none, none, "in commission", false, false⟩],
    alerts := [⟨1, some 0, none, none, "accepted", true, false, false,
               some ⟨10, 600⟩, none, none, none, none, none⟩],
    incidents := [],
    units := [⟨2, "Alpha", 3, true, some ⟨10, 540⟩⟩],
    departments := [⟨3, "Operations", 0⟩], users := [], firePersonnel := [] }

/-- C10 counterexample: a new incident with an unset station, whose
referenced alert does carry a station, is rejected with "Station is
required" — validation runs before the user pre-save hooks, so the
hook's auto-fill never executes and no save with an auto-filled station
exists, contrary to the claimed auto-fill behaviour. -/
theorem incidentPreSave_counterexample :
    ((findAlert exPreSaveDb 1).map (fun a => a.station)) = some (some 0) ∧
    runIncidentPreSave exPreSaveDb
        ⟨7, 1, none, 3, 2, "pending", none, none, none, none, none⟩ true ⟨10, 601⟩ =
      Except.error "Station is required" ∧
    saveNewIncident exPreSaveDb
        ⟨7, 1, none, 3, 2, "pending", none, none, none, none, none⟩ ⟨10, 601⟩ =
      Except.error "Station is required" :=
  ⟨rfl, rfl, rfl⟩

/-- C10 (amended): every successful save of an Incident guarantees that
the referenced alert, department and unit exist (the save is rejected
with the matching error when any of the three is absent) and that the
caller set the station; an incident with an unset station is rejected by
the schema's required validation ("Station is required") before the
pre-save hooks run, so the station auto-fill never takes effect and a
saved incident's station is exactly the one it was saved with. -/
theorem incidentPreSave_spec (db : DB) (inc : Incident) (sm : Bool) (now : Time) :
    (∀ inc2, runIncidentPreSave db inc sm now = Except.ok inc2 →
       (findAlert db inc.alertId).isSome = true ∧
       (findDepartment db inc.departmentOnDuty).isSome = true ∧
       (findUnit db inc.unitOnDuty).isSome = true ∧
       inc.station.isSome = true ∧ inc2.station = inc.station)
    ∧ (inc.station = none →
        runIncidentPreSave db inc sm now = Except.error "Station is required")
    ∧ (inc.station.isSome = true → findAlert db inc.alertId = none →
        runIncidentPreSave db inc sm now = Except.error "Referenced alert does not exist")
    ∧ (∀ alert, inc.station.isSome = true → findAlert db inc.alertId = some alert →
        findDepartment db inc.departmentOnDuty = none →
        runIncidentPreSave db inc sm now = Except.error "Referenced department does not exist")
    ∧ (∀ alert, inc.station.isSome = true → findAlert db inc.alertId = some alert →
        (findDepartment db inc.departmentOnDuty).isSome = true →
        findUnit db inc.unitOnDuty = none →
        runIncidentPreSave db inc sm now = Except.error "Referenced unit does not exist") := by
  have hnone_of_some : inc.station.isSome = true → inc.station.isNone = false := by
    intro hs
    rcases Option.isSome_iff_exists.mp hs with ⟨s, hs2⟩
    simp [hs2]
  refine ⟨?_, ?_, ?_, ?_, ?_⟩
  · intro inc2 h
    unfold runIncidentPreSave at h
    by_cases hni : inc.station.isNone = true
    · rw [if_pos hni] at h
      exact absurd h (by simp)
    · have hns : inc.station.isSome = true := by
        cases hsta : inc.station
        · rw [hsta] at hni
          simp at hni
        · rfl
      rw [if_neg hni] at h
      cases ha : findAlert db inc.alertId with
      | none => rw [ha] at h; exact absurd h (by simp)
      | some alert =>
        rw [ha] at h
        simp only [] at h
        rw [autofillStation_of_some inc alert.station hns] at h
        cases hd : findDepartment db inc.departmentOnDuty with
        | none => rw [hd] at h; exact absurd h (by simp)
        | some d =>
          rw [hd] at h
          cases hu : findUnit db inc.unitOnDuty with
          | none => rw [hu] at h; exact absurd h (by simp)
          | some u =>
            rw [hu] at h
            simp only [] at h
            have h2 : (if sm then incidentStatusHook inc alert now else inc) = inc2 :=
              Except.ok.inj h
            refine ⟨by simp [ha], by simp [hd], by simp [hu], hns, ?_⟩
            rw [← h2]
            cases sm
            · rfl
            · simpa using (incidentStatusHook_frame inc alert now).2.2.1
  · intro hnone
    unfold runIncidentPreSave
    rw [if_pos (by rw [hnone]; rfl)]
  · intro hns ha
    unfold runIncidentPreSave
    rw [if_neg (by simp [hnone_of_some hns]), ha]
  · intro alert hns ha hd
    unfold runIncidentPreSave
    rw [if_neg (by simp [hnone_of_some hns]), ha]
    simp only []
    rw [autofillStation_of_some inc alert.station hns, hd]
  · intro alert hns ha hd hu
    unfold runIncidentPreSave
    rcases Option.isSome_iff_exists.mp hd with ⟨d, hd2⟩
    rw [if_neg (by simp [hnone_of_some hns]), ha]
    simp only []
    rw [autofillStation_of_some inc alert.station hns, hd2, hu]

/-- Witness for `incidentPreSave_spec`: a station-set incident saves
successfully with its station unchanged, and deleting the department
from the store makes the same save fail with the matching error. -/
theorem incidentPreSave_spec_witness :
    (runIncidentPreSave exPreSaveDb
        ⟨7, 1, some 0, 3, 2, "pending", none, none, none, none, none⟩ true ⟨10, 601⟩ =
      Except.ok ⟨7, 1, some 0, 3, 2, "pending", none, none, none, none, none⟩) ∧
    (runIncidentPreSave { exPreSaveDb with departments := [] }
        ⟨7, 1, some 0, 3, 2, "pending", none, none, none, none, none⟩ true ⟨10, 601⟩ =
      Except.error "Referenced department does not exist") := by
  have h2 := incidentPreSave_spec { exPreSaveDb with departments := [] }
    ⟨7, 1, some 0, 3, 2, "pending", none, none, none, none, none⟩ true ⟨10, 601⟩
  refine ⟨rfl, ?_⟩
  exact h2.2.2.2.1 ⟨1, some 0, none, none, "accepted", true, false, false,
    some ⟨10, 600⟩, none, none, none, none, none⟩ rfl rfl rfl

/-! ## C4: operational timestamps are written at most once -/

lemma applyStatusTimestamp_frame (inc : Incident) (st : String) (ts : Time) :
    (applyStatusTimestamp inc st ts).id = inc.id ∧
    (applyStatusTimestamp inc st ts).alertId = inc.alertId ∧
    (applyStatusTimestamp inc st ts).station = inc.station ∧
    (applyStatusTimestamp inc st ts).departmentOnDuty = inc.departmentOnDuty ∧
    (applyStatusTimestamp inc st ts).unitOnDuty = inc.unitOnDuty ∧
    (applyStatusTimestamp inc st ts).status = inc.status ∧
    (applyStatusTimestamp inc st ts).turnoutSlip = inc.turnoutSlip := by
  unfold applyStatusTimestamp
  split_ifs <;> simp

lemma applyStatusTimestamp_preserves (inc : Incident) (st : String) (ts : Time) :
    (∀ t, inc.dispatchedAt = some t → (applyStatusTimestamp inc st ts).dispatchedAt = some t) ∧
    (∀ t, inc.arrivedAt = some t → (applyStatusTimestamp inc st ts).arrivedAt = some t) ∧
    (∀ t, inc.resolvedAt = some t → (applyStatusTimestamp inc st ts).resolvedAt = some t) ∧
    (∀ t, inc.closedAt = some t → (applyStatusTimestamp inc st ts).closedAt = some t) := by
  unfold applyStatusTimestamp
  split_ifs <;> simp_all

lemma applyStatusTimestamp_isSome (inc : Incident) (st : String) (ts : Time) :
    ((st == "dispatched") = true → (applyStatusTimestamp inc st ts).dispatchedAt.isSome = true) ∧
    ((st == "on_scene") = true → (applyStatusTimestamp inc st ts).arrivedAt.isSome = true) ∧
    ((st == "resolved") = true → (applyStatusTimestamp inc st ts).resolvedAt.isSome = true) ∧
    ((st == "closed") = true → (applyStatusTimestamp inc st ts).closedAt.isSome = true) := by
  unfold applyStatusTimestamp
  split_ifs <;>
    simp_all [Option.isNone_iff_eq_none, Option.isSome_iff_exists, Option.ne_none_iff_exists']

lemma applyStatusTimestamp_noop (inc : Incident) (st : String) (ts : Time)
    (h1 : (st == "dispatched") = true → inc.dispatchedAt.isSome = true)
    (h2 : (st == "on_scene") = true → inc.arrivedAt.isSome = true)
    (h3 : (st == "resolved") = true → inc.resolvedAt.isSome = true)
    (h4 : (st == "closed") = true → inc.closedAt.isSome = true) :
    applyStatusTimestamp inc st ts = inc := by
  unfold applyStatusTimestamp
  split_ifs <;> simp_all [Option.isNone_iff_eq_none, Option.isSome_iff_exists]

lemma setStatus_self (inc : Incident) (st : String) (h : inc.status = st) :
    ({ inc with status := st } : Incident) = inc := by
  cases inc
  simp_all

lemma findIncident_replace (db : DB) (i : Nat) (key : Nat) (incNew : Incident)
    (hkey : ∀ j : Incident, (j.id == key) = (j.id == i))
    (hid : (incNew.id == i) = true) :
    findIncident (replaceIncident db key incNew) i = (findIncident db i).map (fun _ => incNew) := by
  unfold findIncident replaceIncident
  have : (db.incidents.map (fun j => if j.id == key then incNew else j)) =
      (db.incidents.map (fun j => if j.id == i then incNew else j)) := by
    refine List.map_congr_left (fun j _ => ?_)
    rw [hkey j]
  rw [this]
  exact find_over_update (fun j => j.id == i) (fun _ => incNew) (fun a _ => hid) db.incidents

lemma findIncident_setFlag (db : DB) (sid : Nat) (sts : List String) (i : Nat) :
    findIncident (setHasActiveIncident db sid sts) i = findIncident db i := rfl

lemma updateIncidentStatus_run (db : DB) (i : Nat) (st : String) (ts : Option Time) (now : Time)
    (inc : Incident) (alert : EmergencyAlert) (sid : Nat)
    (hinc : findIncident db i = some inc)
    (ha : findAlert db inc.alertId = some alert)
    (hd : (findDepartment db inc.departmentOnDuty).isSome = true)
    (hu : (findUnit db inc.unitOnDuty).isSome = true)
    (hs : inc.station = some sid)
    (hvalid : validStatuses.contains st = true) :
    updateIncidentStatus db i true (some st) ts now =
      ⟨200, "Incident status updated successfully",
       setHasActiveIncident
         (replaceIncident db inc.id
           (if !(inc.status == st) then
              incidentStatusHook (applyStatusTimestamp { inc with status := st } st (ts.getD now)) alert now
            else
              applyStatusTimestamp { inc with status := st } st (ts.getD now)))
         sid canonicalLive⟩ := by
  have hfr := applyStatusTimestamp_frame { inc with status := st } st (ts.getD now)
  have hhk := incidentStatusHook_frame
    (applyStatusTimestamp { inc with status := st } st (ts.getD now)) alert now
  have ha2 : findAlert db (applyStatusTimestamp { inc with status := st } st (ts.getD now)).alertId
      = some alert := by rw [hfr.2.1]; exact ha
  have hd2 : (findDepartment db
      (applyStatusTimestamp { inc with status := st } st (ts.getD now)).departmentOnDuty).isSome = true := by
    rw [hfr.2.2.2.1]; exact hd
  have hu2 : (findUnit db
      (applyStatusTimestamp { inc with status := st } st (ts.getD now)).unitOnDuty).isSome = true := by
    rw [hfr.2.2.2.2.1]; exact hu
  have hs2 : (applyStatusTimestamp { inc with status := st } st (ts.getD now)).station.isSome = true := by
    rw [hfr.2.2.1]
    simp [hs]
  have hsave := runIncidentPreSave_ok db
    (applyStatusTimestamp { inc with status := st } st (ts.getD now)) (!(inc.status == st)) now
    alert ha2 hd2 hu2 hs2
  have hpost : (if !(inc.status == st) then
      incidentStatusHook (applyStatusTimestamp { inc with status := st } st (ts.getD now)) alert now
    else applyStatusTimestamp { inc with status := st } st (ts.getD now)).station = some sid := by
    cases hsm : !(inc.status == st)
    · rw [if_neg Bool.false_ne_true, hfr.2.2.1]
      exact hs
    · rw [if_pos rfl, hhk.2.2.1, hfr.2.2.1]
      exact hs
  have hkeyid : (applyStatusTimestamp { inc with status := st } st (ts.getD now)).id = inc.id :=
    hfr.1
  unfold updateIncidentStatus
  simp only [Bool.not_true, Bool.false_eq_true, if_false, hvalid, hinc]
  unfold saveExistingIncident
  rw [hsave]
  simp only [hkeyid, hpost]

/-- C4: through the status-transition operation, each of `dispatchedAt`,
`arrivedAt`, `resolvedAt`, `closedAt` (and the turnout slip) is written
at most once — an already-set field survives any further status update
unchanged — and re-sending the same status transition, in particular a
second transition into "dispatched", returns the incident with all four
operational timestamps and the turnout slip exactly as the first
transition left them. -/
theorem incidentTimestamps_once (db : DB) (i : Nat) (st : String) (ts1 ts2 : Option Time)
    (now1 now2 : Time) (inc : Incident) (alert : EmergencyAlert) (sid : Nat)
    (hinc : findIncident db i = some inc)
    (ha : findAlert db inc.alertId = some alert)
    (hd : (findDepartment db inc.departmentOnDuty).isSome = true)
    (hu : (findUnit db inc.unitOnDuty).isSome = true)
    (hs : inc.station = some sid)
    (hvalid : validStatuses.contains st = true) :
    ∃ db2 inc3,
      updateIncidentStatus db i true (some st) ts1 now1 =
        ⟨200, "Incident status updated successfully", db2⟩ ∧
      findIncident db2 i = some inc3 ∧
      (∀ t, inc.dispatchedAt = some t → inc3.dispatchedAt = some t) ∧
      (∀ t, inc.arrivedAt = some t → inc3.arrivedAt = some t) ∧
      (∀ t, inc.resolvedAt = some t → inc3.resolvedAt = some t) ∧
      (∀ t, inc.closedAt = some t → inc3.closedAt = some t) ∧
      (∀ sl, inc.turnoutSlip = some sl → inc3.turnoutSlip = some sl) ∧
      ∃ db3, updateIncidentStatus db2 i true (some st) ts2 now2 =
          ⟨200, "Incident status updated successfully", db3⟩ ∧
        findIncident db3 i = some inc3 := by
  have hid : (inc.id == i) = true := by
    have h2 := hinc
    unfold findIncident at h2
    have h3 := List.find?_some (p := fun x : Incident => x.id == i) h2
    simpa using h3
  have hfr := applyStatusTimestamp_frame { inc with status := st } st (ts1.getD now1)
  have hpre := applyStatusTimestamp_preserves { inc with status := st } st (ts1.getD now1)
  have hiss := applyStatusTimestamp_isSome { inc with status := st } st (ts1.getD now1)
  set inc2 := applyStatusTimestamp { inc with status := st } st (ts1.getD now1) with hinc2def
  have hhkf := incidentStatusHook_frame inc2 alert now1
  have hhkp := incidentStatusHook_preserves inc2 alert now1
  set inc3 := (if !(inc.status == st) then incidentStatusHook inc2 alert now1 else inc2)
    with hinc3def
  have hrun1 := updateIncidentStatus_run db i st ts1 now1 inc alert sid hinc ha hd hu hs hvalid
  -- facts about inc3
  have h3frame : inc3.id = inc.id ∧ inc3.alertId = inc.alertId ∧ inc3.station = inc.station ∧
      inc3.departmentOnDuty = inc.departmentOnDuty ∧ inc3.unitOnDuty = inc.unitOnDuty ∧
      inc3.status = st := by
    rw [hinc3def]
    cases hsm : !(inc.status == st)
    · rw [if_neg Bool.false_ne_true]
      exact ⟨hfr.1, hfr.2.1, hfr.2.2.1, hfr.2.2.2.1, hfr.2.2.2.2.1, by rw [hfr.2.2.2.2.2.1]⟩
    · rw [if_pos rfl]
      refine ⟨by rw [hhkf.1, hfr.1], by rw [hhkf.2.1, hfr.2.1], by rw [hhkf.2.2.1, hfr.2.2.1],
        by rw [hhkf.2.2.2.1, hfr.2.2.2.1], by rw [hhkf.2.2.2.2.1, hfr.2.2.2.2.1],
        by rw [hhkf.2.2.2.2.2, hfr.2.2.2.2.2.1]⟩
  have h3pres : (∀ t, inc.dispatchedAt = some t → inc3.dispatchedAt = some t) ∧
      (∀ t, inc.arrivedAt = some t → inc3.arrivedAt = some t) ∧
      (∀ t, inc.resolvedAt = some t → inc3.resolvedAt = some t) ∧
      (∀ t, inc.closedAt = some t → inc3.closedAt = some t) ∧
      (∀ sl, inc.turnoutSlip = some sl → inc3.turnoutSlip = some sl) := by
    rw [hinc3def]
    cases hsm : !(inc.status == st)
    · rw [if_neg Bool.false_ne_true]
      exact ⟨hpre.1, hpre.2.1, hpre.2.2.1, hpre.2.2.2, fun sl h => by rw [hfr.2.2.2.2.2.2]; exact h⟩
    · rw [if_pos rfl]
      exact ⟨fun t h => hhkp.1 t (hpre.1 t h), fun t h => hhkp.2.1 t (hpre.2.1 t h),
        fun t h => hhkp.2.2.1 t (hpre.2.2.1 t h), fun t h => hhkp.2.2.2.1 t (hpre.2.2.2 t h),
        fun sl h => hhkp.2.2.2.2 sl (by rw [hfr.2.2.2.2.2.2]; exact h)⟩
  have h3some : ((st == "dispatched") = true → inc3.dispatchedAt.isSome = true) ∧
      ((st == "on_scene") = true → inc3.arrivedAt.isSome = true) ∧
      ((st == "resolved") = true → inc3.resolvedAt.isSome = true) ∧
      ((st == "closed") = true → inc3.closedAt.isSome = true) := by
    rw [hinc3def]
    cases hsm : !(inc.status == st)
    · rw [if_neg Bool.false_ne_true]
      exact hiss
    · rw [if_pos rfl]
      refine ⟨fun h => ?_, fun h => ?_, fun h => ?_, fun h => ?_⟩
      · rcases Option.isSome_iff_exists.mp (hiss.1 h) with ⟨t, ht⟩
        rw [hhkp.1 t ht]
        rfl
      · rcases Option.isSome_iff_exists.mp (hiss.2.1 h) with ⟨t, ht⟩
        rw [hhkp.2.1 t ht]
        rfl
      · rcases Option.isSome_iff_exists.mp (hiss.2.2.1 h) with ⟨t, ht⟩
        rw [hhkp.2.2.1 t ht]
        rfl
      · rcases Option.isSome_iff_exists.mp (hiss.2.2.2 h) with ⟨t, ht⟩
        rw [hhkp.2.2.2.1 t ht]
        rfl
  have hid3 : (inc3.id == i) = true := by rw [h3frame.1]; exact hid
  have hkey1 : inc.id = i := beq_iff_eq.mp hid
  have hfind2 : findIncident
      (setHasActiveIncident (replaceIncident db inc.id inc3) sid canonicalLive) i = some inc3 := by
    rw [findIncident_setFlag, findIncident_replace db i inc.id inc3 (fun j => by rw [hkey1]) hid3,
      hinc]
    rfl
  refine ⟨_, inc3, hrun1, hfind2, h3pres.1, h3pres.2.1, h3pres.2.2.1, h3pres.2.2.2.1,
    h3pres.2.2.2.2, ?_⟩
  -- the second, identical transition
  have ha2 : findAlert (setHasActiveIncident (replaceIncident db inc.id inc3) sid canonicalLive)
      inc3.alertId = some alert := by rw [h3frame.2.1]; exact ha
  have hd2 : (findDepartment (setHasActiveIncident (replaceIncident db inc.id inc3) sid canonicalLive)
      inc3.departmentOnDuty).isSome = true := by rw [h3frame.2.2.2.1]; exact hd
  have hu2 : (findUnit (setHasActiveIncident (replaceIncident db inc.id inc3) sid canonicalLive)
      inc3.unitOnDuty).isSome = true := by rw [h3frame.2.2.2.2.1]; exact hu
  have hs2 : inc3.station = some sid := by rw [h3frame.2.2.1]; exact hs
  have hrun2 := updateIncidentStatus_run
    (setHasActiveIncident (replaceIncident db inc.id inc3) sid canonicalLive) i st ts2 now2
    inc3 alert sid hfind2 ha2 hd2 hu2 hs2 hvalid
  have hsm2 : (!(inc3.status == st)) = false := by
    rw [h3frame.2.2.2.2.2]
    simp
  have hself : ({ inc3 with status := st } : Incident) = inc3 :=
    setStatus_self inc3 st h3frame.2.2.2.2.2
  have hnoop : applyStatusTimestamp inc3 st (ts2.getD now2) = inc3 :=
    applyStatusTimestamp_noop inc3 st (ts2.getD now2) h3some.1 h3some.2.1 h3some.2.2.1 h3some.2.2.2
  rw [hsm2, if_neg Bool.false_ne_true, hself, hnoop] at hrun2
  refine ⟨_, hrun2, ?_⟩
  rw [findIncident_setFlag,
    findIncident_replace _ i inc3.id inc3 (fun j => by rw [beq_iff_eq.mp hid3]) hid3, hfind2]
  rfl

/-- Store for the C4 witness: a dispatched incident with its timestamp
and turnout slip already set. -/
def exIncDb : DB :=
  { stations := [⟨0, "Central Fire Station", none, none, none, "in commission", false, false⟩],
    alerts := [⟨1, some 0, none, none, "accepted", true, false, false,
               some ⟨10, 600⟩, none, none, none, none, none⟩],
    incidents := [⟨7, 1, some 0, 3, 2, "dispatched", some 1, some ⟨11, 0⟩, none, none, none⟩],
    units := [⟨2, "Alpha", 3, true, some ⟨10, 540⟩⟩],
    departments := [⟨3, "Operations", 0⟩], users := [], firePersonnel := [] }

/-- Witness for `incidentTimestamps_once`: re-sending "dispatched" keeps
the existing `dispatchedAt` and turnout slip, and the second resend
returns the identical incident. -/
theorem incidentTimestamps_once_witness :
    ∃ db2 inc3,
      updateIncidentStatus exIncDb 7 true (some "dispatched") none ⟨12, 0⟩ =
        ⟨200, "Incident status updated successfully", db2⟩ ∧
      findIncident db2 7 = some inc3 ∧
      inc3.dispatchedAt = some ⟨11, 0⟩ ∧ inc3.turnoutSlip = some 1 ∧
      ∃ db3, updateIncidentStatus db2 7 true (some "dispatched") none ⟨12, 5⟩ =
          ⟨200, "Incident status updated successfully", db3⟩ ∧
        findIncident db3 7 = some inc3 := by
  obtain ⟨db2, inc3, h1, h2, h3, _, _, _, h7, db3, h8, h9⟩ :=
    incidentTimestamps_once exIncDb 7 "dispatched" none none ⟨12, 0⟩ ⟨12, 5⟩
      ⟨7, 1, some 0, 3, 2, "dispatched", some 1, some ⟨11, 0⟩, none, none, none⟩
      ⟨1, some 0, none, none, "accepted", true, false, false,
       some ⟨10, 600⟩, none, none, none, none, none⟩ 0
      (by decide) (by decide) (by decide) (by decide) (by decide) (by decide)
  exact ⟨db2, inc3, h1, h2, h3 ⟨11, 0⟩ rfl, h7 1 rfl, db3, h8, h9⟩

/-! ## C1: terminal-flag exclusivity -/

/-- Store for the C1 counterexample: a dispatched (accepted) alert. -/
def exC1Db : DB :=
  { stations := [⟨0, "Central Fire Station", none, none, none, "in commission", false, false⟩,
                 ⟨9, "North Station", none, none, none, "in commission", false, false⟩],
    alerts := [⟨1, some 0, some 3, some 2, "accepted", true, false, false,
               some ⟨10, 600⟩, none, none, none, none, none⟩],
    incidents := [],
    units := [⟨2, "Alpha", 3, true, some ⟨10, 540⟩⟩],
    departments := [⟨3, "Operations", 0⟩], users := [], firePersonnel := [] }

/-- C1 counterexample: the generic update endpoint performs no
terminal-state check — patching status "rejected" onto an
already-dispatched alert succeeds with 200 and leaves the alert with
both `dispatched` and `declined` true, so the claimed mutual exclusion
and the claimed Conflict failure of update are both false. -/
theorem alertTerminal_counterexample :
    (updateEmergencyAlert exC1Db 1 true ⟨some "rejected", none, none, none, none, none, none⟩
        ⟨11, 0⟩ 50).statusCode = 200 ∧
    ((findAlert (updateEmergencyAlert exC1Db 1 true
          ⟨some "rejected", none, none, none, none, none, none⟩ ⟨11, 0⟩ 50).db 1).map
        (fun a => (a.dispatched, a.declined))) = some (true, true) :=
  ⟨rfl, rfl⟩

/-- C1 (amended): the dispatch, decline and refer endpoints do enforce
terminal exclusivity — on an alert with a terminal flag already set
(with their other preconditions met) each fails with a 400 whose message
names the terminal state that already holds, leaving the store
unchanged; the generic update endpoint performs no such check, as the
counterexample shows. -/
theorem alertTerminal_guard (db : DB) (reportId : Nat) (reason : Option String)
    (now : Time) (target : Nat) (a : EmergencyAlert) (st : Station)
    (freshId : Nat)
    (ha : findAlert db reportId = some a)
    (hunit : alertUnitIsActive db a = true)
    (hreason : reasonMissing reason = false)
    (hts : findStation db target = some st)
    (hdiff : (a.station == some target) = false) :
    (a.dispatched = true →
      dispatchEmergencyAlert db reportId true now freshId =
        ⟨400, "Emergency alert has already been dispatched", db⟩ ∧
      declineEmergencyAlert db reportId true reason now =
        ⟨400, "Emergency alert has already been dispatched. Cannot decline a dispatched alert.", db⟩ ∧
      referEmergencyAlert db reportId true (some target) true reason now =
        ⟨400, "Emergency alert has already been dispatched. Cannot refer a dispatched alert.", db⟩)
    ∧ (a.dispatched = false → a.declined = true →
      dispatchEmergencyAlert db reportId true now freshId =
        ⟨400, "Emergency alert has already been declined. Cannot dispatch a declined alert.", db⟩ ∧
      declineEmergencyAlert db reportId true reason now =
        ⟨400, "Emergency alert has already been declined", db⟩ ∧
      referEmergencyAlert db reportId true (some target) true reason now =
        ⟨400, "Emergency alert has already been declined. Cannot refer a declined alert.", db⟩)
    ∧ (a.dispatched = false → a.declined = false → a.referred = true →
      dispatchEmergencyAlert db reportId true now freshId =
        ⟨400,
         "Emergency alert has already been referred to another station. Cannot dispatch a referred alert.",
         db⟩ ∧
      declineEmergencyAlert db reportId true reason now =
        ⟨400, "Emergency alert has already been referred. Cannot decline a referred alert.", db⟩ ∧
      referEmergencyAlert db reportId true (some target) true reason now =
        ⟨400, "Emergency alert has already been referred to another station", db⟩) := by
  refine ⟨fun h1 => ⟨?_, ?_, ?_⟩, fun h1 h2 => ⟨?_, ?_, ?_⟩, fun h1 h2 h3 => ⟨?_, ?_, ?_⟩⟩ <;>
    simp [dispatchEmergencyAlert, declineEmergencyAlert, referEmergencyAlert,
      ha, hunit, hreason, hts, hdiff, h1] <;>
    simp_all

/-- Witness for `alertTerminal_guard` on the dispatched alert of the
counterexample store. -/
theorem alertTerminal_guard_witness :
    dispatchEmergencyAlert exC1Db 1 true ⟨11, 0⟩ 50 =
      ⟨400, "Emergency alert has already been dispatched", exC1Db⟩ ∧
    declineEmergencyAlert exC1Db 1 true (some "busy") ⟨11, 0⟩ =
      ⟨400, "Emergency alert has already been dispatched. Cannot decline a dispatched alert.", exC1Db⟩ := by
  have h := alertTerminal_guard exC1Db 1 (some "busy") ⟨11, 0⟩ 9
    ⟨1, some 0, some 3, some 2, "accepted", true, false, false,
     some ⟨10, 600⟩, none, none, none, none, none⟩
    ⟨9, "North Station", none, none, none, "in commission", false, false⟩ 50
    (by decide) (by decide) (by decide) (by decide) (by decide)
  exact ⟨(h.1 rfl).1, (h.1 rfl).2.1⟩

/-! ## C2: the hasActiveIncident denormalized flag -/

lemma findStation_setFlag (db : DB) (sid : Nat) (sts : List String) (st0 : Station)
    (h : findStation db sid = some st0) :
    findStation (setHasActiveIncident db sid sts) sid =
      some { st0 with hasActiveIncident := decide (0 < countIncidentsIn db sid sts) } := by
  unfold setHasActiveIncident
  rw [findStation_updateStations db sid
    (fun s => { s with hasActiveIncident := decide (0 < countIncidentsIn db sid sts) })
    (fun s => rfl), h]
  rfl

/-- Store for the C2 and C5 counterexamples: an open alert for station 0
with an on-duty operations unit and no incidents. -/
def exC2Db : DB :=
  { stations := [⟨0, "Central Fire Station", none, none, none, "in commission", false, false⟩],
    alerts := [⟨1, some 0, some 3, some 2, "active", false, false, false,
               none, none, none, none, none, none⟩],
    incidents := [],
    units := [⟨2, "Alpha", 3, true, some ⟨10, 540⟩⟩],
    departments := [⟨3, "Operations", 0⟩], users := [], firePersonnel := [] }

/-- C2 counterexample: dispatching the open alert creates a pending
incident for station 0, but the recompute at that call site counts only
{active, dispatched, on_scene}, so `hasActiveIncident` is persisted as
false while the {pending, active, dispatched, on_scene} count is 1 —
the claimed equation fails after this incident-creating operation. -/
theorem stationIncidentFlag_counterexample :
    (dispatchEmergencyAlert exC2Db 1 true ⟨11, 0⟩ 50).statusCode = 200 ∧
    countIncidentsIn (dispatchEmergencyAlert exC2Db 1 true ⟨11, 0⟩ 50).db 0 canonicalLive = 1 ∧
    ((findStation (dispatchEmergencyAlert exC2Db 1 true ⟨11, 0⟩ 50).db 0).map
        (fun s => s.hasActiveIncident)) = some false :=
  ⟨rfl, rfl, rfl⟩

/-- C2 (amended): after an incident create, status update, or delete
through the incident controller, the incident's station carries
`hasActiveIncident = (count of its incidents with status in
{pending, active, dispatched, on_scene}) > 0` evaluated on the resulting
store; the incident creation inside alert acceptance/dispatch instead
recomputes over {active, dispatched, on_scene}, as the counterexample
shows. -/
theorem stationIncidentFlag_spec (db : DB) (body : CreateIncidentBody)
    (aid did uid i freshId : Nat) (st : String) (ts : Option Time) (now : Time)
    (alert : EmergencyAlert) (inc : Incident) (sid : Nat) (st0 : Station)
    (hst : findStation db sid = some st0) :
    (body.alertId = some aid → body.departmentOnDuty = some did → body.unitOnDuty = some uid →
     body.alertIdValid = true → body.deptValid = true → body.unitValid = true →
     findAlert db aid = some alert → alert.station = some sid →
     (st0.status == "out of commission") = false →
     (findDepartment db did).isSome = true → (findUnit db uid).isSome = true →
     ∃ db2 st2, createIncident db body freshId now = ⟨201, "Incident created successfully", db2⟩ ∧
       findStation db2 sid = some st2 ∧
       st2.hasActiveIncident = decide (0 < countIncidentsIn db2 sid canonicalLive))
    ∧ (findIncident db i = some inc → findAlert db inc.alertId = some alert →
       (findDepartment db inc.departmentOnDuty).isSome = true →
       (findUnit db inc.unitOnDuty).isSome = true → inc.station = some sid →
       validStatuses.contains st = true →
       ∃ db2 st2, updateIncidentStatus db i true (some st) ts now =
           ⟨200, "Incident status updated successfully", db2⟩ ∧
         findStation db2 sid = some st2 ∧
         st2.hasActiveIncident = decide (0 < countIncidentsIn db2 sid canonicalLive))
    ∧ (findIncident db i = some inc → inc.station = some sid →
       ∃ db2 st2, deleteIncident db i true = ⟨200, "Incident deleted successfully", db2⟩ ∧
         findStation db2 sid = some st2 ∧
         st2.hasActiveIncident = decide (0 < countIncidentsIn db2 sid canonicalLive)) := by
  refine ⟨?_, ?_, ?_⟩
  · intro h1 h2 h3 h4 h5 h6 h7 h8 h9 h10 h11
    have hcb : (st0.status == "out of commission") = false := h9
    have hinc : ∀ beta : Incident, beta.alertId = aid → beta.station = some sid →
        (findAlert db beta.alertId).isSome = true := by
      intro beta hb1 _
      rw [hb1, h7]
      rfl
    simp only [createIncident, h1, h2, h3, h4, h5, h6, h7, h8, hst, hcb,
      Option.isNone_some, Bool.or_self, Bool.or_false, Bool.false_or, Bool.not_true,
      Bool.false_eq_true, if_false]
    unfold saveNewIncident
    rw [runIncidentPreSave_ok db _ true now alert (by simpa using h7) (by simpa using h10)
      (by simpa using h11) (by simp [h8])]
    simp only [if_true]
    have hhkf := incidentStatusHook_frame
      ⟨freshId, aid, some sid, did, uid, body.status.getD "pending", none,
       body.dispatchedAt, body.arrivedAt, body.resolvedAt, body.closedAt⟩ alert now
    set inc2 := incidentStatusHook
      ⟨freshId, aid, some sid, did, uid, body.status.getD "pending", none,
       body.dispatchedAt, body.arrivedAt, body.resolvedAt, body.closedAt⟩ alert now
      with hinc2
    have hstation2 : inc2.station = some sid := by rw [hhkf.2.2.1]
    simp only [hstation2]
    exact ⟨_, _, rfl, findStation_setFlag _ sid canonicalLive st0 hst, rfl⟩
  · intro h1 h2 h3 h4 h5 h6
    have hrun := updateIncidentStatus_run db i st ts now inc alert sid h1 h2 h3 h4 h5 h6
    refine ⟨_, _, hrun, findStation_setFlag _ sid canonicalLive st0 hst, rfl⟩
  · intro h1 h2
    simp only [deleteIncident, Bool.not_true, Bool.false_eq_true, if_false, h1, h2]
    exact ⟨_, _, rfl, findStation_setFlag _ sid canonicalLive st0 hst, rfl⟩

/-- Store for the C2 witness: an accepted alert with an operations
department and an on-duty unit, no incidents yet. -/
def exC2OkDb : DB :=
  { stations := [⟨0, "Central Fire Station", none, none, none, "in commission", false, false⟩],
    alerts := [⟨1, some 0, some 3, some 2, "accepted", true, false, false,
               some ⟨10, 600⟩, none, none, none, none, none⟩],
    incidents := [],
    units := [⟨2, "Alpha", 3, true, some ⟨10, 540⟩⟩],
    departments := [⟨3, "Operations", 0⟩], users := [], firePersonnel := [] }

/-- Witness for `stationIncidentFlag_spec` on the create path. -/
theorem stationIncidentFlag_spec_witness :
    ∃ db2 st2,
      createIncident exC2OkDb
          ⟨some 1, true, some 3, true, some 2, true, none, none, none, none, none⟩ 50 ⟨11, 0⟩ =
        ⟨201, "Incident created successfully", db2⟩ ∧
      findStation db2 0 = some st2 ∧
      st2.hasActiveIncident = decide (0 < countIncidentsIn db2 0 canonicalLive) := by
  have h := stationIncidentFlag_spec exC2OkDb
    ⟨some 1, true, some 3, true, some 2, true, none, none, none, none, none⟩
    1 3 2 0 50 "pending" none ⟨11, 0⟩
    ⟨1, some 0, some 3, some 2, "accepted", true, false, false,
     some ⟨10, 600⟩, none, none, none, none, none⟩
    ⟨7, 1, some 0, 3, 2, "pending", none, none, none, none, none⟩ 0
    ⟨0, "Central Fire Station", none, none, none, "in commission", false, false⟩ (by decide)
  exact h.1 rfl rfl rfl rfl rfl rfl (by decide) rfl (by decide) (by decide) (by decide)

/-! ## C3: out-of-commission stations and alert creation -/

/-- Store for the C3 counterexample: a single out-of-commission station
findable by name, and one registered user. -/
def exC3Db : DB :=
  { stations := [⟨0, "Riverside Station", none, none, none, "out of commission", false, false⟩],
    alerts := [], incidents := [], units := [], departments := [],
    users := [5], firePersonnel := [] }

/-- Create-alert request targeting the out-of-commission station by a
name-only descriptor (no id, no placeId, no coordinates). -/
def exC3Req : AlertRequest :=
  ⟨true, true, true, true, StationField.objDesc none none (some "riverside"), some 5, true⟩

/-- C3 counterexample: the commission check runs only when the station
resolves before the guard (id, `_id`, or placeId); a request naming the
out-of-commission station by its name skips the check, succeeds with
201, and persists the alert bound to that station — contradicting the
claim that every creation against an out-of-commission station is
denied with nothing persisted. -/
theorem outOfCommission_counterexample :
    ((findStation exC3Db 0).map (fun s => s.status)) = some "out of commission" ∧
    (createEmergencyAlertService exC3Db exC3Req 100).success = true ∧
    (createEmergencyAlertService exC3Db exC3Req 100).statusCode = 201 ∧
    ((createEmergencyAlertService exC3Db exC3Req 100).db.alerts.map
        (fun a => (a.id, a.station))) = [(100, some 0)] :=
  ⟨rfl, rfl, rfl, rfl⟩

/-- C3 (amended): when the request's station reference resolves before
the guard (a valid id string, an object carrying `_id`, or a placeId
match) and that station is out of commission, creation is denied with
status 400 and the fixed message "Cannot create alert: Station is out of
commission" (the message does not name the station), and the store — in
particular the alert collection — is returned unchanged.  A station
supplied only by coordinates or name skips this check, as the
counterexample shows. -/
theorem outOfCommission_guard (db : DB) (req : AlertRequest) (freshId sid : Nat) (st0 : Station)
    (hres : resolveStationPre db req.station = some sid)
    (hfind : findStation db sid = some st0)
    (hstatus : st0.status = "out of commission") :
    createEmergencyAlertService db req freshId =
      ⟨false, 400, "Cannot create alert: Station is out of commission", db⟩ := by
  unfold createEmergencyAlertService
  rw [hres]
  simp only []
  rw [hfind]
  simp only []
  simp [hstatus]

/-- Witness for `outOfCommission_guard`: the same station targeted by
its id string is denied and nothing is persisted. -/
theorem outOfCommission_guard_witness :
    createEmergencyAlertService exC3Db
        ⟨true, true, true, true, StationField.strId 0 true, some 5, true⟩ 100 =
      ⟨false, 400, "Cannot create alert: Station is out of commission", exC3Db⟩ :=
  outOfCommission_guard exC3Db ⟨true, true, true, true, StationField.strId 0 true, some 5, true⟩
    100 0 ⟨0, "Riverside Station", none, none, none, "out of commission", false, false⟩
    rfl rfl rfl

/-! ## C5: incident materialization on alert acceptance -/

lemma countIncidentsIn_append (db : DB) (inc : Incident) (sid : Nat) (sts : List String)
    (h : (inc.station == some sid && sts.contains inc.status) = false) :
    countIncidentsIn (appendIncident db inc) sid sts = countIncidentsIn db sid sts := by
  unfold countIncidentsIn appendIncident
  simp only [List.filter_append, List.filter_cons, List.filter_nil, h, Bool.false_eq_true,
    if_false, List.append_nil]

lemma findIncident_append (db : DB) (inc : Incident) (i : Nat)
    (hnone : findIncident db i = none) (hid : (inc.id == i) = true) :
    findIncident (appendIncident db inc) i = some inc := by
  unfold findIncident appendIncident at *
  simp [List.find?_append, hnone, hid]

lemma findAlert_save (db : DB) (a2 : EmergencyAlert) (i : Nat)
    (hid : (a2.id == i) = true)
    (hkey : ∀ x : EmergencyAlert, (x.id == a2.id) = (x.id == i)) :
    findAlert (saveAlertDoc db a2) i = (findAlert db i).map (fun _ => a2) := by
  unfold findAlert saveAlertDoc
  have hm : db.alerts.map (fun x => if x.id == a2.id then a2 else x) =
      db.alerts.map (fun x => if x.id == i then a2 else x) := by
    refine List.map_congr_left (fun x _ => ?_)
    rw [hkey x]
  rw [hm]
  exact find_over_update (fun x : EmergencyAlert => x.id == i) (fun _ => a2)
    (fun x _ => hid) db.alerts

lemma findStation_recomputeAlert (db : DB) (sid : Nat) (st0 : Station)
    (h : findStation db sid = some st0) :
    findStation (recomputeHasActiveAlert db sid) sid =
      some { st0 with hasActiveAlert := decide (0 < countOpenAlerts db sid) } := by
  unfold recomputeHasActiveAlert
  rw [findStation_updateStations db sid
    (fun s => { s with hasActiveAlert := decide (0 < countOpenAlerts db sid) }) (fun s => rfl), h]
  rfl

lemma createIncidentAfterAccept_ok (db : DB) (sid aid freshId : Nat) (now : Time)
    (d : Department) (au : Unit) (alert : EmergencyAlert)
    (hd : db.departments.find? (fun dp => dp.station_id == sid && containsOperations dp.name) = some d)
    (hu : db.units.find? (fun u => u.department == d.id && u.isActive) = some au)
    (ha : findAlert db aid = some alert)
    (hd2 : (findDepartment db d.id).isSome = true)
    (hu2 : (findUnit db au.id).isSome = true) :
    createIncidentAfterAccept db (some sid) aid freshId now =
      setHasActiveIncident
        (appendIncident db ⟨freshId, aid, some sid, d.id, au.id, "pending",
                            none, none, none, none, none⟩)
        sid narrowLive := by
  unfold createIncidentAfterAccept
  simp only []
  rw [hd]
  simp only []
  rw [hu]
  simp only []
  unfold saveNewIncident
  rw [runIncidentPreSave_ok db
    ⟨freshId, aid, some sid, d.id, au.id, "pending", none, none, none, none, none⟩ true now alert
    (by simpa using ha) (by simpa using hd2) (by simpa using hu2) rfl]
  have hhook : incidentStatusHook
      ⟨freshId, aid, some sid, d.id, au.id, "pending", none, none, none, none, none⟩ alert now =
      ⟨freshId, aid, some sid, d.id, au.id, "pending", none, none, none, none, none⟩ := rfl
  rw [if_pos rfl, hhook]

lemma createIncidentAfterAccept_noDept (db : DB) (sid aid freshId : Nat) (now : Time)
    (hd : db.departments.find? (fun dp => dp.station_id == sid && containsOperations dp.name) = none) :
    createIncidentAfterAccept db (some sid) aid freshId now = db := by
  unfold createIncidentAfterAccept
  simp only []
  rw [hd]

/-- C5 counterexample: dispatching an open alert for a station with an
active operations unit does create a pending incident bound to that
department and unit, but `hasActiveIncident` for the station is then
persisted as false, not true — the recompute at this call site counts
only {active, dispatched, on_scene} and the new incident is pending. -/
theorem acceptMaterialization_counterexample :
    ((findIncident (dispatchEmergencyAlert exC2Db 1 true ⟨11, 0⟩ 50).db 50).map
        (fun j => (j.status, j.alertId, j.departmentOnDuty, j.unitOnDuty, j.station))) =
      some ("pending", 1, 3, 2, some 0) ∧
    ((findStation (dispatchEmergencyAlert exC2Db 1 true ⟨11, 0⟩ 50).db 0).map
        (fun s => s.hasActiveIncident)) = some false :=
  ⟨rfl, rfl⟩

/-- C5 (amended): accepting an open alert (dispatch endpoint, or a
status update to "accepted" from a non-accepted status) materializes a
new incident with status "pending" bound to the station's operations
department and its on-duty unit; the station's `hasActiveIncident` is
then recomputed over {active, dispatched, on_scene} only — the fresh
pending incident is not counted, so the flag equals whether some
non-pending live incident already existed (false on a quiet station,
not true as the claim says); and when no operations department exists
the materialization is skipped while the alert transition still
succeeds with 200. -/
theorem acceptMaterialization_spec (db : DB) (reportId freshId : Nat) (now : Time)
    (a : EmergencyAlert) (sid : Nat) (st0 : Station)
    (ha : findAlert db reportId = some a)
    (hunit : alertUnitIsActive db a = true)
    (hf1 : a.dispatched = false) (hf2 : a.declined = false) (hf3 : a.referred = false)
    (hnacc : (a.status == "accepted") = false)
    (hstn : a.station = some sid)
    (hst : findStation db sid = some st0)
    (hfresh : findIncident db freshId = none) :
    (∀ d au,
      db.departments.find? (fun dp => dp.station_id == sid && containsOperations dp.name) = some d →
      db.units.find? (fun u => u.department == d.id && u.isActive) = some au →
      (findDepartment db d.id).isSome = true → (findUnit db au.id).isSome = true →
      ∃ db2,
        dispatchEmergencyAlert db reportId true now freshId =
          ⟨200, "Emergency alert dispatched successfully", db2⟩ ∧
        findIncident db2 freshId =
          some ⟨freshId, reportId, some sid, d.id, au.id, "pending",
                none, none, none, none, none⟩ ∧
        ∃ st2, findStation db2 sid = some st2 ∧
          st2.hasActiveIncident = decide (0 < countIncidentsIn db sid narrowLive))
    ∧ (db.departments.find? (fun dp => dp.station_id == sid && containsOperations dp.name) = none →
      ∃ db2,
        dispatchEmergencyAlert db reportId true now freshId =
          ⟨200, "Emergency alert dispatched successfully", db2⟩ ∧
        db2.incidents = db.incidents)
    ∧ (∀ d au,
      (strLower (strTrim a.status) == "accepted") = false →
      db.departments.find? (fun dp => dp.station_id == sid && containsOperations dp.name) = some d →
      db.units.find? (fun u => u.department == d.id && u.isActive) = some au →
      (findDepartment db d.id).isSome = true → (findUnit db au.id).isSome = true →
      ∃ db2,
        updateEmergencyAlert db reportId true
            ⟨some "accepted", none, none, none, none, none, none⟩ now freshId =
          ⟨200, "Emergency alert updated successfully", db2⟩ ∧
        findIncident db2 freshId =
          some ⟨freshId, reportId, some sid, d.id, au.id, "pending",
                none, none, none, none, none⟩) := by
  have haid : (a.id == reportId) = true := by
    have h2 := ha
    unfold findAlert at h2
    have h3 := List.find?_some (p := fun x : EmergencyAlert => x.id == reportId) h2
    simpa using h3
  have hkey : ∀ x : EmergencyAlert, (x.id == a.id) = (x.id == reportId) := by
    intro x
    rw [beq_iff_eq.mp haid]
  refine ⟨?_, ?_, ?_⟩
  · intro d au hd hu hd2 hu2
    unfold dispatchEmergencyAlert
    rw [if_neg (by decide), ha]
    simp only []
    rw [if_neg (by simp [hunit]), if_neg (by simp [hf1]), if_neg (by simp [hf2]),
      if_neg (by simp [hf3]), if_pos (by simp [hnacc])]
    set alert2 : EmergencyAlert :=
      { a with dispatched := true, dispatchedAt := some now, status := "accepted" } with halert2
    have hstn2 : alert2.station = some sid := hstn
    simp only [hstn, hstn2]
    rw [createIncidentAfterAccept_ok (saveAlertDoc db alert2) sid reportId freshId now d au alert2
      hd hu (by rw [findAlert_save db alert2 reportId haid hkey, ha]; rfl) hd2 hu2]
    refine ⟨_, rfl, ?_, ?_⟩
    · rw [show findIncident
          (recomputeHasActiveAlert
            (setHasActiveIncident
              (appendIncident (saveAlertDoc db alert2)
                ⟨freshId, reportId, some sid, d.id, au.id, "pending", none, none, none, none, none⟩)
              sid narrowLive) sid) freshId =
          findIncident
            (appendIncident (saveAlertDoc db alert2)
              ⟨freshId, reportId, some sid, d.id, au.id, "pending", none, none, none, none, none⟩)
            freshId from rfl]
      exact findIncident_append (saveAlertDoc db alert2) _ freshId hfresh (beq_self_eq_true freshId)
    · have hstep1 := findStation_setFlag
        (appendIncident (saveAlertDoc db alert2)
          ⟨freshId, reportId, some sid, d.id, au.id, "pending", none, none, none, none, none⟩)
        sid narrowLive st0 hst
      rw [findStation_recomputeAlert _ sid _ hstep1]
      refine ⟨_, rfl, ?_⟩
      have hcount := countIncidentsIn_append (saveAlertDoc db alert2)
        ⟨freshId, reportId, some sid, d.id, au.id, "pending", none, none, none, none, none⟩
        sid narrowLive (by simp [narrowLive])
      show decide (0 < countIncidentsIn
          (appendIncident (saveAlertDoc db alert2)
            ⟨freshId, reportId, some sid, d.id, au.id, "pending", none, none, none, none, none⟩)
          sid narrowLive) = decide (0 < countIncidentsIn db sid narrowLive)
      rw [hcount]
      rfl
  · intro hdnone
    unfold dispatchEmergencyAlert
    rw [if_neg (by decide), ha]
    simp only []
    rw [if_neg (by simp [hunit]), if_neg (by simp [hf1]), if_neg (by simp [hf2]),
      if_neg (by simp [hf3]), if_pos (by simp [hnacc])]
    set alert2 : EmergencyAlert :=
      { a with dispatched := true, dispatchedAt := some now, status := "accepted" } with halert2
    have hstn2 : alert2.station = some sid := hstn
    simp only [hstn, hstn2]
    rw [createIncidentAfterAccept_noDept (saveAlertDoc db alert2) sid reportId freshId now hdnone]
    exact ⟨_, rfl, rfl⟩
  · intro d au hnacc2 hd hu hd2 hu2
    have he1 : ((⟨some "accepted", none, none, none, none, none, none⟩ :
        UpdatePatch).status.map (fun s => strLower (strTrim s))) = some "accepted" := rfl
    unfold updateEmergencyAlert
    rw [if_neg (by decide), ha]
    simp only []
    rw [he1]
    have e1 : ((some "accepted" : Option String) == some "accepted") = true := rfl
    have e2 : ((some "accepted" : Option String) == some "rejected") = false := rfl
    have e3 : ((some "accepted" : Option String) == some "referred") = false := rfl
    rw [e1, hnacc2]
    simp only [Bool.not_false, Bool.and_true, Bool.true_and, if_true, Option.isNone_none,
      e2, e3, Bool.false_and, Bool.and_false, Bool.false_eq_true, if_false]
    set alert2 : EmergencyAlert := applyPatch a
      ⟨some "accepted", some true, none, none, some now, none, none⟩ with halert2
    have hstn2 : alert2.station = some sid := by
      rw [halert2]
      simpa [applyPatch] using hstn
    simp only [hstn, hstn2]
    rw [createIncidentAfterAccept_ok (saveAlertDoc db alert2) sid reportId freshId now d au alert2
      hd hu (by rw [findAlert_save db alert2 reportId (by simpa [halert2, applyPatch] using haid)
        (by intro x; rw [show alert2.id = a.id from by rw [halert2]; rfl, hkey x]), ha]; rfl) hd2 hu2]
    refine ⟨_, rfl, ?_⟩
    rw [show findIncident
        (recomputeHasActiveAlert
          (setHasActiveIncident
            (appendIncident (saveAlertDoc db alert2)
              ⟨freshId, reportId, some sid, d.id, au.id, "pending", none, none, none, none, none⟩)
            sid narrowLive) sid) freshId =
        findIncident
          (appendIncident (saveAlertDoc db alert2)
            ⟨freshId, reportId, some sid, d.id, au.id, "pending", none, none, none, none, none⟩)
          freshId from rfl]
    exact findIncident_append (saveAlertDoc db alert2) _ freshId hfresh (beq_self_eq_true freshId)

/-- Witness for `acceptMaterialization_spec` at the concrete store of
the counterexample. -/
theorem acceptMaterialization_spec_witness :
    ∃ db2,
      dispatchEmergencyAlert exC2Db 1 true ⟨11, 0⟩ 50 =
        ⟨200, "Emergency alert dispatched successfully", db2⟩ ∧
      findIncident db2 50 = some ⟨50, 1, some 0, 3, 2, "pending", none, none, none, none, none⟩ ∧
      ∃ st2, findStation db2 0 = some st2 ∧
        st2.hasActiveIncident = decide (0 < countIncidentsIn exC2Db 0 narrowLive) := by
  have h := acceptMaterialization_spec exC2Db 1 50 ⟨11, 0⟩
    ⟨1, some 0, some 3, some 2, "active", false, false, false,
     none, none, none, none, none, none⟩ 0
    ⟨0, "Central Fire Station", none, none, none, "in commission", false, false⟩
    (by decide) (by decide) rfl rfl rfl (by decide) rfl (by decide) rfl
  exact h.1 ⟨3, "Operations", 0⟩ ⟨2, "Alpha", 3, true, some ⟨10, 540⟩⟩
    (by decide) (by decide) (by decide) (by decide)

/-- Witness for `autoDeactivateUnits_spec` at the concrete two-unit
store (all saves succeeding). -/
theorem autoDeactivateUnits_spec_witness :
    autoDeactivateUnits exSweepDb ⟨2, 0⟩ (fun _ => true) =
      Except.ok
        (setUnits exSweepDb [⟨1, "U1", 3, false, none⟩, ⟨2, "U2", 3, false, none⟩],
         ⟨2, [1, 2]⟩) := by
  have h := autoDeactivateUnits_spec exSweepDb ⟨2, 0⟩ (by decide)
  rw [h]
  rfl

end GNFS
